import Mathlib

/-!
Shallow embedding of `src/millions.py`, a Discord community-management bot:
the PostgreSQL-backed data model (`Database`), the reconciliation engine
(`RoleMonitor.check_user_roles`, `RoleMonitor.sync_user_roles`,
`RoleMonitor.auto_unban_users`, `RoleMonitor.monitor_roles_task`) and the
`/serv` command handler (`add_server_role`).

Embedding conventions:
- Discord snowflake ids are modelled as `Nat`.  The schema stores them in
  VARCHAR columns via `str(...)` and reads them back via `int(...)`; since the
  program only ever writes canonical decimal strings, the two views are in
  bijection and `Nat` is used throughout (the `/serv` command, which receives
  raw user input, keeps its `String` arguments and the `isdigit` check).
- Timestamps are seconds as `Nat`; `datetime.now()` becomes an explicit `now`
  argument.  `CURRENT_TIMESTAMP` at a statement and `datetime.now()` in the
  surrounding Python are the same instant `now`.
- Database tables are lists of typed rows; SERIAL primary keys are modelled
  with explicit `next_*` counters.  `UNIQUE` constraints are not re-checked on
  insert; instead the operations are modelled exactly as written (they only
  insert after establishing absence) and uniqueness appears as an invariant.
- The chat platform (membership oracle / role actuator) is an explicit
  environment value; actuator mutations are modelled as immediately visible.
  Calls to the actuator are additionally recorded as an `Action` trace.
- Logging and embed/UI construction are I/O without state effects and are not
  modelled.
-/

set_option maxRecDepth 10000

namespace Millions

/-- A row of the `tracked_roles` table (see `Database.init_database`). -/
structure TrackedRole where
  id : Nat
  server_id : Nat
  source_server_id : Nat
  source_server_name : Option String
  source_role_id : Nat
  source_role_name : Option String
  target_role_id : Option Nat
  target_role_name : Option String
  is_active : Bool
deriving Repr, DecidableEq

/-- A row of the `banned_users` table (see `Database.init_database`). -/
structure BannedUser where
  id : Nat
  server_id : Nat
  user_id : Nat
  username : String
  ban_time : Nat
  unban_time : Nat
  ban_duration : Nat
  reason : Option String
  is_unbanned : Bool
deriving Repr, DecidableEq

/-- A row of the `servers` table. -/
structure ServerRow where
  id : Nat
  discord_id : Nat
  name : String
  is_setup : Bool
deriving Repr, DecidableEq

/-- A row of the `server_settings` table (only the columns the modelled code
reads; `voice_channel_ids` is stored as a JSON list of ids). -/
structure ServerSettingsRow where
  server_id : Nat
  news_channel_id : Option Nat
  flood_channel_id : Option Nat
  tags_channel_id : Option Nat
  media_channel_id : Option Nat
  logs_channel_id : Option Nat
  voice_channel_ids : List Nat
deriving Repr, DecidableEq

/-- The persistent state owned by the `Database` class. -/
structure DBState where
  servers : List ServerRow
  server_settings : List ServerSettingsRow
  tracked_roles : List TrackedRole
  banned_users : List BannedUser
  next_server_id : Nat
  next_tracked_id : Nat
  next_ban_id : Nat
deriving Repr, DecidableEq

namespace Database

/-- `Database.get_or_create_server`: SELECT by `discord_id`, INSERT when
absent, re-SELECT.  Returns the row and the (possibly extended) state. -/
def get_or_create_server (db : DBState) (discord_id : Nat) (name : String) :
    ServerRow × DBState :=
  match db.servers.find? (fun s => s.discord_id == discord_id) with
  | some s => (s, db)
  | none =>
      let s : ServerRow :=
        { id := db.next_server_id, discord_id := discord_id, name := name,
          is_setup := false }
      (s, { db with servers := db.servers ++ [s],
                    next_server_id := db.next_server_id + 1 })

/-- `Database.get_server_settings`: the empty dict returned for a missing row
is modelled as `none`. -/
def get_server_settings (db : DBState) (server_id : Nat) :
    Option ServerSettingsRow :=
  db.server_settings.find? (fun s => s.server_id == server_id)

/-- Key of the `UNIQUE(server_id, source_server_id, source_role_id)`
constraint on `tracked_roles`. -/
def trackedKey (server_id source_server_id source_role_id : Nat)
    (t : TrackedRole) : Bool :=
  t.server_id == server_id && t.source_server_id == source_server_id &&
    t.source_role_id == source_role_id

/-- `Database.add_tracked_role`: SELECT by key; when found, set
`is_active = TRUE` on that row and return its id; otherwise INSERT a fresh row
(`is_active` defaults to TRUE, `target_role_id` to NULL) and return its id via
a re-SELECT. -/
def add_tracked_role (db : DBState) (server_id source_server_id source_role_id : Nat)
    (source_server_name source_role_name : Option String) :
    Option Nat × DBState :=
  match db.tracked_roles.find?
      (trackedKey server_id source_server_id source_role_id) with
  | some t =>
      let rows := db.tracked_roles.map (fun r =>
        if r.id == t.id then { r with is_active := true } else r)
      (some t.id, { db with tracked_roles := rows })
  | none =>
      let t : TrackedRole :=
        { id := db.next_tracked_id, server_id := server_id,
          source_server_id := source_server_id,
          source_server_name := source_server_name,
          source_role_id := source_role_id,
          source_role_name := source_role_name,
          target_role_id := none, target_role_name := none, is_active := true }
      let rows := db.tracked_roles ++ [t]
      ((rows.find? (trackedKey server_id source_server_id source_role_id)).map
         (fun r => r.id),
       { db with tracked_roles := rows,
                 next_tracked_id := db.next_tracked_id + 1 })

/-- `Database.update_target_role`. -/
def update_target_role (db : DBState) (tracked_role_id : Nat)
    (target_role_id : Nat) (target_role_name : String) : DBState :=
  { db with tracked_roles := db.tracked_roles.map (fun r =>
      if r.id == tracked_role_id then
        { r with target_role_id := some target_role_id,
                 target_role_name := some target_role_name }
      else r) }

/-- `Database.get_tracked_roles`: all rows of the server with
`is_active = TRUE`. -/
def get_tracked_roles (db : DBState) (server_id : Nat) : List TrackedRole :=
  db.tracked_roles.filter (fun t => t.server_id == server_id && t.is_active)

/-- `Database.deactivate_tracked_role`. -/
def deactivate_tracked_role (db : DBState) (tracked_role_id : Nat) : DBState :=
  { db with tracked_roles := db.tracked_roles.map (fun r =>
      if r.id == tracked_role_id then { r with is_active := false } else r) }

/-- Key of the `UNIQUE(server_id, user_id)` constraint on `banned_users`. -/
def banKey (server_id user_id : Nat) (r : BannedUser) : Bool :=
  r.server_id == server_id && r.user_id == user_id

/-- `Database.ban_user`: `unban_time = datetime.now() + timedelta(seconds=600)`,
then `INSERT ... ON CONFLICT (server_id, user_id) DO UPDATE` (the conflicting
row gets the new `username`, `unban_time`, `reason`, `ban_time =
CURRENT_TIMESTAMP`, `is_unbanned = FALSE`; a fresh row takes the schema
defaults `ban_time = CURRENT_TIMESTAMP`, `ban_duration = 600`,
`is_unbanned = FALSE`), and finally SELECT the row id by key. -/
def ban_user (db : DBState) (server_id user_id : Nat) (username : String)
    (reason : Option String) (now : Nat) : Option Nat × DBState :=
  let unban_time := now + 600
  let db1 :=
    if db.banned_users.any (banKey server_id user_id) then
      { db with banned_users := db.banned_users.map (fun r =>
          if banKey server_id user_id r then
            { r with username := username, unban_time := unban_time,
                     reason := reason, ban_time := now, is_unbanned := false }
          else r) }
    else
      let fresh : BannedUser :=
        { id := db.next_ban_id, server_id := server_id, user_id := user_id,
          username := username, ban_time := now, unban_time := unban_time,
          ban_duration := 600, reason := reason, is_unbanned := false }
      { db with banned_users := db.banned_users ++ [fresh],
                next_ban_id := db.next_ban_id + 1 }
  ((db1.banned_users.find? (banKey server_id user_id)).map (fun r => r.id), db1)

/-- `Database.unban_user`: `UPDATE banned_users SET is_unbanned = TRUE,
unban_time = CURRENT_TIMESTAMP WHERE server_id = ... AND user_id = ... AND
is_unbanned = FALSE`. -/
def unban_user (db : DBState) (server_id user_id : Nat) (now : Nat) : DBState :=
  { db with banned_users := db.banned_users.map (fun r =>
      if banKey server_id user_id r && r.is_unbanned == false then
        { r with is_unbanned := true, unban_time := now }
      else r) }

/-- `Database.get_banned_users`: rows of the server with
`is_unbanned = FALSE`. -/
def get_banned_users (db : DBState) (server_id : Nat) : List BannedUser :=
  db.banned_users.filter (fun r => r.server_id == server_id && r.is_unbanned == false)

/-- `Database.get_users_to_unban`: rows with `is_unbanned = FALSE AND
unban_time <= now`, across all servers. -/
def get_users_to_unban (db : DBState) (now : Nat) : List BannedUser :=
  db.banned_users.filter (fun r => r.is_unbanned == false && r.unban_time ≤ now)

end Database

/-! ## The chat-platform environment (membership oracle / role actuator) -/

/-- A guild member as seen through the library cache: id, bot flag, display
name, and the ids of the roles the member holds in that guild. -/
structure Member where
  uid : Nat
  is_bot : Bool
  uname : String
  roles : List Nat
deriving Repr, DecidableEq

/-- A guild the bot is connected to: id, name, existing role ids, channel ids,
recorded per-channel permission overwrites `(channel, role)`, and members. -/
structure Guild where
  gid : Nat
  gname : String
  grole_ids : List Nat
  channels : List Nat
  overwrites : List (Nat × Nat)
  members : List Member
deriving Repr, DecidableEq

/-- The bot's connection state: `bot.guilds`. -/
structure Env where
  guilds : List Guild
deriving Repr, DecidableEq

/-- One call to the role actuator, recorded for the actuator-call traces. -/
inductive Action where
  | grant (gid uid rid : Nat)
  | revoke (gid uid rid : Nat)
  | ban (gid uid : Nat)
  | unban (gid uid : Nat)
deriving Repr, DecidableEq

/-- `bot.get_guild`. -/
def get_guild (env : Env) (gid : Nat) : Option Guild :=
  env.guilds.find? (fun g => g.gid == gid)

/-- `guild.get_member`. -/
def Guild.get_member (g : Guild) (uid : Nat) : Option Member :=
  g.members.find? (fun m => m.uid == uid)

/-- Apply a (gid-preserving) update to the guild with the given id. -/
def Env.updateGuild (env : Env) (gid : Nat) (f : Guild → Guild) : Env :=
  { env with guilds := env.guilds.map (fun g => if g.gid == gid then f g else g) }

/-- Apply a (uid-preserving) update to the member with the given id. -/
def Guild.updateMember (g : Guild) (uid : Nat) (f : Member → Member) : Guild :=
  { g with members := g.members.map (fun m => if m.uid == uid then f m else m) }

/-- `user.add_roles(target_role)`: the role id is added to the member's roles
(modelled as immediately visible in the cache). -/
def grant_role (env : Env) (gid uid rid : Nat) : Env :=
  env.updateGuild gid (fun g => g.updateMember uid (fun m =>
    { m with roles := m.roles ++ [rid] }))

/-- `user.remove_roles(target_role)`. -/
def revoke_role (env : Env) (gid uid rid : Nat) : Env :=
  env.updateGuild gid (fun g => g.updateMember uid (fun m =>
    { m with roles := m.roles.filter (fun r => r != rid) }))

/-- `user.ban(...)` / `guild.ban(...)`: a banned member leaves the guild. -/
def platform_ban (env : Env) (gid uid : Nat) : Env :=
  env.updateGuild gid (fun g =>
    { g with members := g.members.filter (fun m => m.uid != uid) })

/-- `guild.create_role(...)`: the platform assigns the fresh id `rid`. -/
def create_role (env : Env) (gid rid : Nat) : Env :=
  env.updateGuild gid (fun g => { g with grole_ids := g.grole_ids ++ [rid] })

/-- Does the member currently hold the role, as reported by the cache?
(`False` when the guild or the member is unknown.) -/
def memberHasRole (env : Env) (gid uid rid : Nat) : Bool :=
  match get_guild env gid with
  | none => false
  | some g =>
      match g.get_member uid with
      | none => false
      | some m => m.roles.contains rid

/-! ## The reconciliation engine (`RoleMonitor`) -/

namespace RoleMonitor

/-- The membership-oracle query made once per tracked record inside both
`check_user_roles` and `sync_user_roles`:
`source_guild = bot.get_guild(...)`, `source_member =
source_guild.get_member(user_id)`, `source_role =
source_guild.get_role(...)`, `source_role and source_role in
source_member.roles`. -/
def trackedHasSourceRole (env : Env) (uid : Nat) (t : TrackedRole) : Bool :=
  match get_guild env t.source_server_id with
  | none => false
  | some sg =>
      match sg.get_member uid with
      | none => false
      | some sm => sg.grole_ids.contains t.source_role_id &&
                     sm.roles.contains t.source_role_id

/-- Loop body of `RoleMonitor.check_user_roles`: when the member holds the
tracked source role, `user_has_any_role` is set and the role label
(`target_role_name or source_role_name`) with the source guild name is
collected. -/
def checkStep (env : Env) (uid : Nat)
    (acc : Bool × List (Option String × String)) (t : TrackedRole) :
    Bool × List (Option String × String) :=
  match get_guild env t.source_server_id with
  | none => acc
  | some sg =>
      match sg.get_member uid with
      | none => acc
      | some sm =>
          if sg.grole_ids.contains t.source_role_id &&
              sm.roles.contains t.source_role_id then
            (true, acc.2 ++
              [(match t.target_role_name with
                | some n => some n
                | none => t.source_role_name, sg.gname)])
          else acc

/-- `RoleMonitor.check_user_roles`, including its `except` handler: the whole
body is wrapped in `try/except` and any exception makes the function return
`(False, [])`.  `oracleRaises = true` models an exception raised during the
oracle loop (after the server row was ensured). -/
def check_user_roles_exc (oracleRaises : Bool) (env : Env) (db : DBState)
    (guild : Guild) (uid : Nat) :
    (Bool × List (Option String × String)) × DBState :=
  match guild.get_member uid with
  | none => ((false, []), db)
  | some _ =>
      let sr := Database.get_or_create_server db guild.gid guild.gname
      if oracleRaises then ((false, []), sr.2)
      else
        let tracked := Database.get_tracked_roles sr.2 sr.1.id
        (tracked.foldl (checkStep env uid) (false, []), sr.2)

/-- `RoleMonitor.check_user_roles` on a run where no exception is raised. -/
def check_user_roles (env : Env) (db : DBState) (guild : Guild) (uid : Nat) :
    (Bool × List (Option String × String)) × DBState :=
  check_user_roles_exc false env db guild uid

/-- Loop body of `RoleMonitor.sync_user_roles`: skip records without a
resolved `target_role_id` or whose target role no longer exists; re-query the
oracle for the record's own source role; grant the target role when held
remotely but missing locally, revoke it when held locally but not remotely. -/
def syncStep (gid uid : Nat) (acc : Env × List Action) (t : TrackedRole) :
    Env × List Action :=
  match t.target_role_id with
  | none => acc
  | some trid =>
      match get_guild acc.1 gid with
      | none => acc
      | some guild =>
          if !(guild.grole_ids.contains trid) then acc
          else
            let has_source_role := trackedHasSourceRole acc.1 uid t
            match guild.get_member uid with
            | none => acc
            | some user =>
                if has_source_role && !(user.roles.contains trid) then
                  (grant_role acc.1 gid uid trid,
                   acc.2 ++ [Action.grant gid uid trid])
                else if !has_source_role && user.roles.contains trid then
                  (revoke_role acc.1 gid uid trid,
                   acc.2 ++ [Action.revoke gid uid trid])
                else acc

/-- `RoleMonitor.ban_user`: ensure the server row, upsert the `banned_users`
row, then ban on the platform (the member is present in `sync_user_roles`'
call site whenever the membership check passed at entry; for an absent member
`guild.ban` by id has the same modelled effect). -/
def ban_user (env : Env) (db : DBState) (gid : Nat) (gname : String)
    (uid : Nat) (uname : String) (reason : Option String) (now : Nat) :
    Env × DBState :=
  let sr := Database.get_or_create_server db gid gname
  let b := Database.ban_user sr.2 sr.1.id uid uname reason now
  (platform_ban env gid uid, b.2)

/-- `RoleMonitor.sync_user_roles` with the `check_user_roles` exception flag
threaded through (the remainder of the pass succeeding): look the member up,
run `check_user_roles`, iterate the grant/revoke loop over the active tracked
records, and finally ban when the member holds no tracked role anywhere and
has no active `banned_users` row. -/
def sync_user_roles_exc (oracleRaises : Bool) (env : Env) (db : DBState)
    (gid uid : Nat) (now : Nat) : Env × DBState × List Action :=
  match get_guild env gid with
  | none => (env, db, [])
  | some guild =>
      match guild.get_member uid with
      | none => (env, db, [])
      | some user =>
          let chk := check_user_roles_exc oracleRaises env db guild uid
          let user_has_any_role := chk.1.1
          let sr := Database.get_or_create_server chk.2 guild.gid guild.gname
          let tracked := Database.get_tracked_roles sr.2 sr.1.id
          let fr := tracked.foldl (syncStep gid uid) (env, [])
          if !user_has_any_role &&
              !((Database.get_banned_users sr.2 sr.1.id).map
                  (fun b => b.user_id)).contains uid then
            let bn := ban_user fr.1 sr.2 gid guild.gname uid user.uname
              (some "Отсутствие требуемых ролей") now
            (bn.1, bn.2, fr.2 ++ [Action.ban gid uid])
          else (fr.1, sr.2, fr.2)

/-- `RoleMonitor.sync_user_roles` on a run where no exception is raised. -/
def sync_user_roles (env : Env) (db : DBState) (gid uid : Nat) (now : Nat) :
    Env × DBState × List Action :=
  sync_user_roles_exc false env db gid uid now

/-- `RoleMonitor.auto_unban_users`: scan `get_users_to_unban`; for each row,
look the guild up via `bot.get_guild(int(banned['server_id']))` — note that
this passes the *internal* `servers.id` value stored in the row, not a
Discord id — and when a guild is found, unban on the platform and mark the
row unbanned. -/
def auto_unban_users (env : Env) (db : DBState) (now : Nat) :
    Env × DBState × List Action :=
  (Database.get_users_to_unban db now).foldl
    (fun acc b =>
      match get_guild acc.1 b.server_id with
      | none => acc
      | some srv =>
          (acc.1, Database.unban_user acc.2.1 b.server_id b.user_id now,
           acc.2.2 ++ [Action.unban srv.gid b.user_id]))
    (env, db, [])

/-- Per-guild body of `RoleMonitor.monitor_roles_task`: ensure the server row,
read the active tracked records, `continue` when there are none, and otherwise
run `sync_user_roles` over `[m for m in guild.members if not m.bot][:3]`
(collecting the processed `(guild, member)` pairs). -/
def guild_tick (now : Nat)
    (acc : Env × DBState × List Action × List (Nat × Nat)) (gid : Nat) :
    Env × DBState × List Action × List (Nat × Nat) :=
  match get_guild acc.1 gid with
  | none => acc
  | some g =>
      let sr := Database.get_or_create_server acc.2.1 g.gid g.gname
      let tracked := Database.get_tracked_roles sr.2 sr.1.id
      if tracked.isEmpty then (acc.1, sr.2, acc.2.2.1, acc.2.2.2)
      else
        let members := (g.members.filter (fun m => !m.is_bot)).take 3
        members.foldl
          (fun acc2 m =>
            if m.is_bot then acc2
            else
              let r := sync_user_roles acc2.1 acc2.2.1 gid m.uid now
              (r.1, r.2.1, acc2.2.2.1 ++ r.2.2, acc2.2.2.2 ++ [(gid, m.uid)]))
          (acc.1, sr.2, acc.2.2.1, acc.2.2.2)

/-- One tick of `RoleMonitor.monitor_roles_task` (the 3-second loop): first
the unban sweep, unconditionally, then the per-guild member sweep over a
snapshot of `bot.guilds`. -/
def monitor_tick (env : Env) (db : DBState) (now : Nat) :
    Env × DBState × List Action × List (Nat × Nat) :=
  let u := auto_unban_users env db now
  (u.1.guilds.map Guild.gid).foldl (guild_tick now) (u.1, u.2.1, u.2.2, [])

end RoleMonitor

/-! ## The `/serv` command (`add_server_role`) -/

/-- `channel.set_permissions(role, ...)`: replaces the overwrite recorded for
this `(channel, role)` pair. -/
def set_channel_permissions (env : Env) (gid ch rid : Nat) : Env :=
  env.updateGuild gid (fun g =>
    { g with overwrites :=
        (g.overwrites.filter (fun p => p != (ch, rid))) ++ [(ch, rid)] })

/-- `ChannelPermissions.add_role_to_channels`: give the role an overwrite on
each configured channel that still exists (news, flood, tags, media, then the
voice channels), counting the channels configured. -/
def add_role_to_channels (env : Env) (gid rid : Nat)
    (settings : ServerSettingsRow) : Env × Nat :=
  let step := fun (acc : Env × Nat) (ch? : Option Nat) =>
    match ch? with
    | none => acc
    | some ch =>
        match get_guild acc.1 gid with
        | none => acc
        | some g =>
            if g.channels.contains ch then
              (set_channel_permissions acc.1 gid ch rid, acc.2 + 1)
            else acc
  let acc1 := step (env, 0) settings.news_channel_id
  let acc2 := step acc1 settings.flood_channel_id
  let acc3 := step acc2 settings.tags_channel_id
  let acc4 := step acc3 settings.media_channel_id
  settings.voice_channel_ids.foldl (fun acc v => step acc (some v)) acc4

/-- The user-visible outcome of the `/serv` command. -/
inductive ServResult where
  | invalidIds
  | sourceServerNotFound
  | sourceRoleNotFound
  | alreadyTracked
  | serverNotConfigured
  | added (tracked_id : Option Nat)
deriving Repr, DecidableEq

/-- Python's `str.isdigit` on the command arguments. -/
def isdigit (s : String) : Bool := !s.toList.isEmpty && s.toList.all Char.isDigit

/-- Python's `int(...)` applied to a decimal digit string (the handler only
converts after `isdigit` has accepted the argument). -/
def strToNat (s : String) : Nat := s.toList.foldl (fun n c => n * 10 + (c.toNat - 48)) 0

/-- The `/serv` handler `add_server_role(interaction, source_server_id,
source_role_id)`: validate the ids, resolve the source guild and role, ensure
the server row, reject when the pair is already among the active tracked
records, otherwise create the local role (the platform assigns `newRoleId`),
require the server settings, configure the channel overwrites, persist the
tracked record with its target role, and finally run `sync_user_roles` over
every current non-bot member. -/
def add_server_role (env : Env) (db : DBState) (gid : Nat) (gname : String)
    (source_server_id source_role_id : String) (newRoleId : Nat) (now : Nat) :
    ServResult × Env × DBState :=
  if !(isdigit source_server_id) || !(isdigit source_role_id) then
    (ServResult.invalidIds, env, db)
  else
    let ssid := strToNat source_server_id
    let srid := strToNat source_role_id
    match get_guild env ssid with
    | none => (ServResult.sourceServerNotFound, env, db)
    | some source_guild =>
        if !(source_guild.grole_ids.contains srid) then
          (ServResult.sourceRoleNotFound, env, db)
        else
          let sr := Database.get_or_create_server db gid gname
          let tracked := Database.get_tracked_roles sr.2 sr.1.id
          if tracked.any (fun t =>
              t.source_server_id == ssid && t.source_role_id == srid) then
            (ServResult.alreadyTracked, env, sr.2)
          else
            let env1 := create_role env gid newRoleId
            match Database.get_server_settings sr.2 sr.1.id with
            | none => (ServResult.serverNotConfigured, env1, sr.2)
            | some settings =>
                let env2 := (add_role_to_channels env1 gid newRoleId settings).1
                let ad := Database.add_tracked_role sr.2 sr.1.id ssid srid
                  (some source_guild.gname) none
                let db3 :=
                  match ad.1 with
                  | some tid =>
                      Database.update_target_role ad.2 tid newRoleId
                        (source_guild.gname.take 32)
                  | none => ad.2
                let uids : List Nat :=
                  match get_guild env2 gid with
                  | none => []
                  | some g => (g.members.filter (fun m => !m.is_bot)).map
                      (fun m => m.uid)
                let fin := uids.foldl
                  (fun acc u =>
                    let r := RoleMonitor.sync_user_roles acc.1 acc.2 gid u now
                    (r.1, r.2.1))
                  (env2, db3)
                (ServResult.added ad.1, fin.1, fin.2)

/-! ## Concrete states

Small reachable states used to evaluate the model at concrete inputs: a source
community `100` with roles `11` and `22`, a managed community `200` whose
`servers` row has internal id `1`, and tracked records as created by two
`/serv` invocations (`(100, 11) ↦ 501` and `(100, 22) ↦ 502`). -/

/-- Source community `100`: member `1` holds role `11` but not `22`. -/
def gSrc : Guild := ⟨100, "s", [11, 22], [], [], [⟨1, false, "a", [11]⟩]⟩

/-- Managed community `200` with the two `/serv`-created local roles; member
`1` holds neither yet. -/
def gLoc : Guild := ⟨200, "l", [501, 502], [], [], [⟨1, false, "a", []⟩]⟩

def envAB : Env := ⟨[gSrc, gLoc]⟩

/-- Tracked record `(100, 11) ↦ 501` of server row `1`. -/
def trA : TrackedRole := ⟨1, 1, 100, some "s", 11, some "w", some 501, some "l", true⟩

/-- Tracked record `(100, 22) ↦ 502` of server row `1` — same source
community as `trA`, hence in the same group. -/
def trB : TrackedRole := ⟨2, 1, 100, some "s", 22, some "x", some 502, some "l", true⟩

def dbAB : DBState := ⟨[⟨1, 200, "l", true⟩], [], [trA, trB], [], 2, 3, 1⟩

/-- An expired active ban row: `banned_users.server_id` holds the *internal*
server id `1` of community `200`, exactly as written by `RoleMonitor.ban_user`
via `get_or_create_server`. -/
def bRow : BannedUser := ⟨1, 1, 5, "b", 10, 50, 600, none, false⟩

def c3_env : Env := ⟨[⟨200, "l", [], [], [], []⟩]⟩

def c3_db : DBState := ⟨[⟨1, 200, "l", true⟩], [], [], [bRow], 2, 1, 2⟩

/-- The row `bRow` after a renewed ban at instant 1000. -/
def bRowAfter : BannedUser := ⟨1, 1, 5, "n", 1000, 1600, 600, none, false⟩

/-- Four permanently compliant non-bot members: each holds source role `11` in
community `100` and the synchronized local role `501` in community `200`. -/
def c6_env : Env := ⟨[
  ⟨100, "s", [11], [], [],
    [⟨1, false, "a", [11]⟩, ⟨2, false, "b", [11]⟩,
     ⟨3, false, "c", [11]⟩, ⟨4, false, "d", [11]⟩]⟩,
  ⟨200, "l", [501], [], [],
    [⟨1, false, "a", [501]⟩, ⟨2, false, "b", [501]⟩,
     ⟨3, false, "c", [501]⟩, ⟨4, false, "d", [501]⟩]⟩]⟩

def c6_db : DBState := ⟨[⟨1, 200, "l", true⟩, ⟨2, 100, "s", false⟩], [],
  [⟨1, 1, 100, some "s", 11, some "w", some 501, some "l", true⟩], [], 3, 2, 1⟩

/-- The monitoring loop iterated from `(c6_env, c6_db)`: state after `n`
ticks. -/
def c6_state : Nat → Env × DBState
  | 0 => (c6_env, c6_db)
  | n + 1 =>
      let s := c6_state n
      let r := RoleMonitor.monitor_tick s.1 s.2 100
      (r.1, r.2.1)

/-- The server row of the community a sync pass over guild `g` works with. -/
def serverRowOf (db : DBState) (g : Guild) : ServerRow :=
  (Database.get_or_create_server db g.gid g.gname).1

/-- The active tracked records a sync pass over guild `g` iterates. -/
def trackedListOf (db : DBState) (g : Guild) : List TrackedRole :=
  Database.get_tracked_roles (Database.get_or_create_server db g.gid g.gname).2
    (serverRowOf db g).id

/-- The `UNIQUE(server_id, user_id)` constraint of `banned_users`: at most one
row per key. -/
def AtMostOneBanRowPerKey (db : DBState) : Prop :=
  ∀ s u : Nat, db.banned_users.countP (Database.banKey s u) ≤ 1

/-! ## General list lemmas -/

theorem countP_one_split {α : Type} (p : α → Bool) (t0 : α) :
    ∀ l : List α, l.countP p = 1 → t0 ∈ l → p t0 = true →
      ∃ l1 l2, l = l1 ++ t0 :: l2 ∧ l1.countP p = 0 ∧ l2.countP p = 0
  | [], _, hm, _ => absurd hm (List.not_mem_nil t0)
  | a :: l, hc, hm, hp => by
      by_cases ha : p a = true
      · rw [List.countP_cons_of_pos _ _ ha] at hc
        have hl : l.countP p = 0 := by omega
        have ht0 : t0 = a := by
          rcases List.mem_cons.mp hm with h | h
          · exact h
          · exact absurd (List.countP_pos_iff.mpr ⟨t0, h, hp⟩) (by omega)
        exact ⟨[], l, by rw [ht0]; rfl, rfl, hl⟩
      · rw [List.countP_cons_of_neg _ _ ha] at hc
        have hm' : t0 ∈ l := by
          rcases List.mem_cons.mp hm with h | h
          · exact absurd (h ▸ hp) ha
          · exact h
        obtain ⟨l1, l2, he, h1, h2⟩ := countP_one_split p t0 l hc hm' hp
        exact ⟨a :: l1, l2, by rw [he]; rfl,
          by rw [List.countP_cons_of_neg _ _ ha]; exact h1, h2⟩

theorem find?_append_left_none {α : Type} (p : α → Bool) :
    ∀ l1 l2 : List α, l1.find? p = none → (l1 ++ l2).find? p = l2.find? p
  | [], _, _ => rfl
  | a :: l1, l2, h => by
      have hpa : ¬ p a = true := by
        intro hpa
        rw [List.find?_cons_of_pos _ hpa] at h
        exact Option.some_ne_none _ h
      rw [List.find?_cons_of_neg _ hpa] at h
      rw [List.cons_append, List.find?_cons_of_neg _ hpa]
      exact find?_append_left_none p l1 l2 h

theorem find?_of_countP_one {α : Type} (p : α → Bool) (t0 : α) (l : List α)
    (hc : l.countP p = 1) (hm : t0 ∈ l) (hp : p t0 = true) :
    l.find? p = some t0 := by
  obtain ⟨l1, l2, rfl, h1, _⟩ := countP_one_split p t0 l hc hm hp
  rw [find?_append_left_none p l1 _
        (List.find?_eq_none.mpr (fun x hx => List.countP_eq_zero.mp h1 x hx)),
      List.find?_cons_of_pos _ hp]

theorem map_self {α : Type} (f : α → α) :
    ∀ l : List α, (∀ a ∈ l, f a = a) → l.map f = l
  | [], _ => rfl
  | a :: l, h => by
      rw [List.map_cons, h a (List.mem_cons_self a l),
          map_self f l (fun x hx => h x (List.mem_cons_of_mem _ hx))]

theorem map_pointwise {α β : Type} (f g : α → β) :
    ∀ l : List α, (∀ a ∈ l, f a = g a) → l.map f = l.map g
  | [], _ => rfl
  | a :: l, h => by
      rw [List.map_cons, List.map_cons, h a (List.mem_cons_self a l),
          map_pointwise f g l (fun x hx => h x (List.mem_cons_of_mem _ hx))]

theorem countP_map_pointwise {α β : Type} (p : β → Bool) (q : α → Bool) (f : α → β) :
    ∀ l : List α, (∀ a ∈ l, p (f a) = q a) → (l.map f).countP p = l.countP q
  | [], _ => rfl
  | a :: l, h => by
      have ih := countP_map_pointwise p q f l
        (fun x hx => h x (List.mem_cons_of_mem _ hx))
      rw [List.map_cons]
      by_cases hpa : p (f a) = true
      · rw [List.countP_cons_of_pos _ _ hpa,
            List.countP_cons_of_pos _ _ (by rw [← h a (List.mem_cons_self a l)]; exact hpa),
            ih]
      · rw [List.countP_cons_of_neg _ _ hpa,
            List.countP_cons_of_neg _ _ (by rw [← h a (List.mem_cons_self a l)]; exact hpa),
            ih]

theorem countP_pointwise {α : Type} (p q : α → Bool) :
    ∀ l : List α, (∀ a ∈ l, p a = q a) → l.countP p = l.countP q
  | [], _ => rfl
  | a :: l, h => by
      have ih := countP_pointwise p q l (fun x hx => h x (List.mem_cons_of_mem _ hx))
      by_cases ha : p a = true
      · rw [List.countP_cons_of_pos _ _ ha,
            List.countP_cons_of_pos _ _ (by rw [← h a (List.mem_cons_self a l)]; exact ha), ih]
      · rw [List.countP_cons_of_neg _ _ ha,
            List.countP_cons_of_neg _ _ (by rw [← h a (List.mem_cons_self a l)]; exact ha), ih]

/-! ## Environment lemmas -/

theorem find?_key_map {α : Type} (key : α → Nat) (k0 kq : Nat) (f : α → α)
    (hf : ∀ x, key (f x) = key x) :
    ∀ xs : List α,
      (xs.map (fun x => if key x == k0 then f x else x)).find?
          (fun x => key x == kq) =
        if kq = k0 then (xs.find? (fun x => key x == kq)).map f
        else xs.find? (fun x => key x == kq)
  | [] => by by_cases h : kq = k0 <;> simp [h]
  | x :: xs => by
      have ih := find?_key_map key k0 kq f hf xs
      by_cases hk0 : (key x == k0) = true
      · have hmap : ((x :: xs).map (fun x => if key x == k0 then f x else x)) =
            f x :: xs.map (fun x => if key x == k0 then f x else x) := by
          rw [List.map_cons, if_pos hk0]
        rw [hmap]
        by_cases hq : (key (f x) == kq) = true
        · rw [@List.find?_cons_of_pos _ (fun x => key x == kq) (f x) _ hq]
          have hxq : (key x == kq) = true := by rw [← hf x]; exact hq
          have hqk : kq = k0 := by
            have h1 : key x = k0 := by simpa using hk0
            have h2 : key x = kq := by simpa using hxq
            rw [← h2]; exact h1
          rw [if_pos hqk, @List.find?_cons_of_pos _ (fun x => key x == kq) x _ hxq]
          rfl
        · rw [@List.find?_cons_of_neg _ (fun x => key x == kq) (f x) _ hq]
          have hxq : ¬ (key x == kq) = true := by rw [← hf x]; exact hq
          by_cases hqk : kq = k0
          · rw [if_pos hqk] at ih ⊢
            rw [@List.find?_cons_of_neg _ (fun x => key x == kq) x _ hxq]
            exact ih
          · rw [if_neg hqk] at ih ⊢
            rw [@List.find?_cons_of_neg _ (fun x => key x == kq) x _ hxq]
            exact ih
      · have hmap : ((x :: xs).map (fun x => if key x == k0 then f x else x)) =
            x :: xs.map (fun x => if key x == k0 then f x else x) := by
          rw [List.map_cons, if_neg hk0]
        rw [hmap]
        by_cases hxq : (key x == kq) = true
        · rw [@List.find?_cons_of_pos _ (fun x => key x == kq) x _ hxq]
          have hqk : ¬ kq = k0 := by
            intro h
            subst h
            exact hk0 hxq
          rw [if_neg hqk, @List.find?_cons_of_pos _ (fun x => key x == kq) x _ hxq]
        · rw [@List.find?_cons_of_neg _ (fun x => key x == kq) x _ hxq]
          by_cases hqk : kq = k0
          · rw [if_pos hqk] at ih ⊢
            rw [@List.find?_cons_of_neg _ (fun x => key x == kq) x _ hxq]
            exact ih
          · rw [if_neg hqk] at ih ⊢
            rw [@List.find?_cons_of_neg _ (fun x => key x == kq) x _ hxq]
            exact ih

theorem get_guild_updateGuild (env : Env) (gid0 : Nat) (f : Guild → Guild)
    (hf : ∀ g, (f g).gid = g.gid) (sid : Nat) :
    get_guild (env.updateGuild gid0 f) sid =
      if sid = gid0 then (get_guild env sid).map f else get_guild env sid :=
  find?_key_map Guild.gid gid0 sid f hf env.guilds

theorem get_member_updateMember (g : Guild) (uid0 : Nat) (f : Member → Member)
    (hf : ∀ m, (f m).uid = m.uid) (uidq : Nat) :
    (g.updateMember uid0 f).get_member uidq =
      if uidq = uid0 then (g.get_member uidq).map f else g.get_member uidq :=
  find?_key_map Member.uid uid0 uidq f hf g.members

theorem get_guild_grant (env : Env) (gid uid rid sid : Nat) :
    get_guild (grant_role env gid uid rid) sid =
      if sid = gid then (get_guild env sid).map
        (fun g => g.updateMember uid (fun m => { m with roles := m.roles ++ [rid] }))
      else get_guild env sid :=
  get_guild_updateGuild env gid
    (fun g => g.updateMember uid (fun m => { m with roles := m.roles ++ [rid] }))
    (fun _ => rfl) sid

theorem get_guild_revoke (env : Env) (gid uid rid sid : Nat) :
    get_guild (revoke_role env gid uid rid) sid =
      if sid = gid then (get_guild env sid).map
        (fun g => g.updateMember uid
          (fun m => { m with roles := m.roles.filter (fun r => r != rid) }))
      else get_guild env sid :=
  get_guild_updateGuild env gid
    (fun g => g.updateMember uid
      (fun m => { m with roles := m.roles.filter (fun r => r != rid) }))
    (fun _ => rfl) sid

theorem get_guild_platform_ban (env : Env) (gid uid sid : Nat) :
    get_guild (platform_ban env gid uid) sid =
      if sid = gid then (get_guild env sid).map
        (fun g => { g with members := g.members.filter (fun m => m.uid != uid) })
      else get_guild env sid :=
  get_guild_updateGuild env gid
    (fun g => { g with members := g.members.filter (fun m => m.uid != uid) })
    (fun _ => rfl) sid

/-- The oracle query only reads the source community, so two environments that
agree there answer it identically. -/
theorem trackedHasSourceRole_congr (e env0 : Env) (uid : Nat) (t : TrackedRole)
    (h : get_guild e t.source_server_id = get_guild env0 t.source_server_id) :
    RoleMonitor.trackedHasSourceRole e uid t =
      RoleMonitor.trackedHasSourceRole env0 uid t := by
  unfold RoleMonitor.trackedHasSourceRole
  rw [h]

theorem memberHasRole_def (env : Env) (gid uid rid : Nat) (g : Guild) (m : Member)
    (hg : get_guild env gid = some g) (hm : g.get_member uid = some m) :
    memberHasRole env gid uid rid = m.roles.contains rid := by
  unfold memberHasRole
  rw [hg]
  dsimp only
  rw [hm]

theorem memberHasRole_grant_eq (env : Env) (gid uid rid : Nat) (g : Guild)
    (m : Member) (hg : get_guild env gid = some g)
    (hm : g.get_member uid = some m) (r : Nat) :
    memberHasRole (grant_role env gid uid rid) gid uid r =
      (m.roles.contains r || (r == rid)) := by
  unfold memberHasRole
  rw [get_guild_grant, if_pos rfl, hg, Option.map_some']
  dsimp only
  rw [get_member_updateMember g uid
        (fun m => { m with roles := m.roles ++ [rid] }) (fun _ => rfl) uid,
      if_pos rfl, hm, Option.map_some']
  rw [Bool.eq_iff_iff]
  simp

theorem memberHasRole_revoke_eq (env : Env) (gid uid rid : Nat) (g : Guild)
    (m : Member) (hg : get_guild env gid = some g)
    (hm : g.get_member uid = some m) (r : Nat) :
    memberHasRole (revoke_role env gid uid rid) gid uid r =
      (m.roles.contains r && !(r == rid)) := by
  unfold memberHasRole
  rw [get_guild_revoke, if_pos rfl, hg, Option.map_some']
  dsimp only
  rw [get_member_updateMember g uid
        (fun m => { m with roles := m.roles.filter (fun r => r != rid) })
        (fun _ => rfl) uid,
      if_pos rfl, hm, Option.map_some']
  rw [Bool.eq_iff_iff]
  simp [List.mem_filter]

theorem memberHasRole_platform_ban_self (env : Env) (gid uid r : Nat) :
    memberHasRole (platform_ban env gid uid) gid uid r = false := by
  unfold memberHasRole
  rw [get_guild_platform_ban, if_pos rfl]
  cases hg : get_guild env gid with
  | none => rfl
  | some g =>
      rw [Option.map_some']
      dsimp only
      have hnone : (({ g with members := g.members.filter (fun m => m.uid != uid) }
          : Guild).get_member uid) = none := by
        unfold Guild.get_member
        refine List.find?_eq_none.mpr ?_
        intro x hx
        have := (List.mem_filter.mp hx).2
        simp only [bne_iff_ne, ne_eq, decide_eq_true_eq] at this
        simp [this]
      rw [hnone]

theorem get_member_platform_ban_self (env : Env) (gid uid : Nat) (g : Guild)
    (hg : get_guild (platform_ban env gid uid) gid = some g) :
    g.get_member uid = none := by
  rw [get_guild_platform_ban, if_pos rfl] at hg
  cases hge : get_guild env gid with
  | none => rw [hge] at hg; cases hg
  | some g0 =>
      rw [hge, Option.map_some', Option.some_inj] at hg
      subst hg
      unfold Guild.get_member
      refine List.find?_eq_none.mpr ?_
      intro x hx
      have := (List.mem_filter.mp hx).2
      simp only [bne_iff_ne, ne_eq, decide_eq_true_eq] at this
      simp [this]

/-! ## Reconciliation-engine lemmas -/

theorem goc_banned_users (db : DBState) (gid : Nat) (n : String) :
    (Database.get_or_create_server db gid n).2.banned_users = db.banned_users := by
  unfold Database.get_or_create_server
  cases db.servers.find? (fun s => s.discord_id == gid) <;> rfl

theorem get_banned_users_goc (db : DBState) (gid : Nat) (n : String) (sidv : Nat) :
    Database.get_banned_users (Database.get_or_create_server db gid n).2 sidv =
      Database.get_banned_users db sidv := by
  unfold Database.get_banned_users
  rw [goc_banned_users]

/-- Looking the server row up again right after `get_or_create_server` returns
the same row and changes nothing. -/
theorem goc_idem (db : DBState) (gid : Nat) (n : String) :
    Database.get_or_create_server (Database.get_or_create_server db gid n).2 gid n =
      Database.get_or_create_server db gid n := by
  cases hfind : db.servers.find? (fun s => s.discord_id == gid) with
  | some s =>
      have h1 : Database.get_or_create_server db gid n = (s, db) := by
        unfold Database.get_or_create_server
        rw [hfind]
      rw [h1]
      exact h1
  | none =>
      have h1 : Database.get_or_create_server db gid n =
          (⟨db.next_server_id, gid, n, false⟩,
           { db with servers := db.servers ++ [⟨db.next_server_id, gid, n, false⟩],
                     next_server_id := db.next_server_id + 1 }) := by
        unfold Database.get_or_create_server
        rw [hfind]
      rw [h1]
      unfold Database.get_or_create_server
      dsimp only
      rw [find?_append_left_none _ _ _ hfind,
          @List.find?_cons_of_pos _ (fun s : ServerRow => s.discord_id == gid)
            ⟨db.next_server_id, gid, n, false⟩ [] (beq_self_eq_true gid)]

theorem checkStep_fst (env : Env) (uid : Nat)
    (p : Bool × List (Option String × String)) (t : TrackedRole) :
    (RoleMonitor.checkStep env uid p t).1 =
      (p.1 || RoleMonitor.trackedHasSourceRole env uid t) := by
  unfold RoleMonitor.checkStep RoleMonitor.trackedHasSourceRole
  cases get_guild env t.source_server_id with
  | none => dsimp only; rw [Bool.or_false]
  | some sg =>
      dsimp only
      cases sg.get_member uid with
      | none => dsimp only; rw [Bool.or_false]
      | some sm =>
          dsimp only
          by_cases h : (sg.grole_ids.contains t.source_role_id &&
              sm.roles.contains t.source_role_id) = true
          · rw [if_pos h, h, Bool.or_true]
          · rw [if_neg h]
            rw [Bool.not_eq_true] at h
            rw [h, Bool.or_false]

theorem checkFold_fst (env : Env) (uid : Nat) :
    ∀ (ts : List TrackedRole) (p : Bool × List (Option String × String)),
      (ts.foldl (RoleMonitor.checkStep env uid) p).1 =
        (p.1 || ts.any (RoleMonitor.trackedHasSourceRole env uid))
  | [], p => by rw [List.foldl_nil, List.any_nil, Bool.or_false]
  | t :: ts, p => by
      rw [List.foldl_cons, List.any_cons,
          checkFold_fst env uid ts (RoleMonitor.checkStep env uid p t),
          checkStep_fst, Bool.or_assoc]

/-- On an exception-free run with the member present, `check_user_roles`
answers exactly "does the member hold ANY active tracked source role". -/
theorem check_fst_eq_any (env : Env) (db : DBState) (guild : Guild) (uid : Nat)
    (m : Member) (hm : guild.get_member uid = some m) :
    (RoleMonitor.check_user_roles_exc false env db guild uid).1.1 =
      (Database.get_tracked_roles
          (Database.get_or_create_server db guild.gid guild.gname).2
          (Database.get_or_create_server db guild.gid guild.gname).1.id).any
        (RoleMonitor.trackedHasSourceRole env uid) := by
  unfold RoleMonitor.check_user_roles_exc
  rw [hm]
  have h2 := checkFold_fst env uid
    (Database.get_tracked_roles
      (Database.get_or_create_server db guild.gid guild.gname).2
      (Database.get_or_create_server db guild.gid guild.gname).1.id)
    ((false, []) : Bool × List (Option String × String))
  rw [Bool.false_or] at h2
  exact h2

theorem check_snd (env : Env) (db : DBState) (guild : Guild) (uid : Nat)
    (b : Bool) (m : Member) (hm : guild.get_member uid = some m) :
    (RoleMonitor.check_user_roles_exc b env db guild uid).2 =
      (Database.get_or_create_server db guild.gid guild.gname).2 := by
  unfold RoleMonitor.check_user_roles_exc
  rw [hm]
  cases b with
  | false => rfl
  | true => rfl

/-- One grant/revoke step either leaves the accumulator unchanged or appends a
single grant or revoke action, mutating only that role. -/
theorem syncStep_cases (gid uid : Nat) (acc : Env × List Action) (t : TrackedRole) :
    RoleMonitor.syncStep gid uid acc t = acc ∨
    (∃ rid, RoleMonitor.syncStep gid uid acc t =
      (grant_role acc.1 gid uid rid, acc.2 ++ [Action.grant gid uid rid])) ∨
    (∃ rid, RoleMonitor.syncStep gid uid acc t =
      (revoke_role acc.1 gid uid rid, acc.2 ++ [Action.revoke gid uid rid])) := by
  unfold RoleMonitor.syncStep
  dsimp only
  repeat' split
  all_goals first
    | exact Or.inl rfl
    | exact Or.inr (Or.inl ⟨_, rfl⟩)
    | exact Or.inr (Or.inr ⟨_, rfl⟩)

/-- The grant/revoke loop issues no ban action. -/
theorem syncFold_ban_iff (gid uid g0 u0 : Nat) :
    ∀ (ts : List TrackedRole) (acc : Env × List Action),
      (Action.ban g0 u0 ∈ (ts.foldl (RoleMonitor.syncStep gid uid) acc).2) ↔
        Action.ban g0 u0 ∈ acc.2
  | [], _ => Iff.rfl
  | t :: ts, acc => by
      rw [List.foldl_cons,
          syncFold_ban_iff gid uid g0 u0 ts (RoleMonitor.syncStep gid uid acc t)]
      rcases syncStep_cases gid uid acc t with h | ⟨rid, h⟩ | ⟨rid, h⟩ <;> rw [h] <;> simp

/-- The sync pass's "already actively banned" test, characterized over the
rows of the table. -/
theorem banned_contains_false_iff (db : DBState) (sidv uid : Nat) :
    (((Database.get_banned_users db sidv).map (fun b => b.user_id)).contains uid
        = false) ↔
      (∀ b ∈ db.banned_users, b.server_id = sidv → b.user_id = uid →
        b.is_unbanned = true) := by
  unfold Database.get_banned_users
  rw [← Bool.not_eq_true]
  constructor
  · intro h b hb hs hu
    by_contra hub
    rw [Bool.not_eq_true] at hub
    apply h
    have hb' : b ∈ db.banned_users.filter
        (fun r => r.server_id == sidv && r.is_unbanned == false) :=
      List.mem_filter.mpr ⟨hb, by rw [hs, hub]; simp⟩
    have hmem : uid ∈ (db.banned_users.filter
        (fun r => r.server_id == sidv && r.is_unbanned == false)).map
        (fun b => b.user_id) := List.mem_map.mpr ⟨b, hb', hu⟩
    simpa using hmem
  · intro h hc
    have hmem : uid ∈ (db.banned_users.filter
        (fun r => r.server_id == sidv && r.is_unbanned == false)).map
        (fun b => b.user_id) := by simpa using hc
    obtain ⟨b, hb', hu⟩ := List.mem_map.mp hmem
    obtain ⟨hb, hcond⟩ := List.mem_filter.mp hb'
    simp only [Bool.and_eq_true, beq_iff_eq] at hcond
    have htrue := h b hb hcond.1 hu
    rw [htrue] at hcond
    exact Bool.noConfusion hcond.2

/-- Full analysis of one grant/revoke step when the community and the member
are present: other communities are untouched; the community keeps its id,
name, roles and the member; member roles other than the record's target are
untouched; and the record's resolved-and-present target converges to the
record's own oracle answer. -/
theorem syncStep_analysis (gid uid : Nat) (e : Env) (acts : List Action)
    (t : TrackedRole) (g : Guild) (m : Member)
    (hg : get_guild e gid = some g) (hm : g.get_member uid = some m) :
    (∀ sid : Nat, sid ≠ gid →
      get_guild (RoleMonitor.syncStep gid uid (e, acts) t).1 sid =
        get_guild e sid) ∧
    (∃ g2 m2, get_guild (RoleMonitor.syncStep gid uid (e, acts) t).1 gid = some g2 ∧
      g2.gid = g.gid ∧ g2.gname = g.gname ∧ g2.grole_ids = g.grole_ids ∧
      g2.get_member uid = some m2) ∧
    (∀ r : Nat, t.target_role_id ≠ some r →
      memberHasRole (RoleMonitor.syncStep gid uid (e, acts) t).1 gid uid r =
        memberHasRole e gid uid r) ∧
    (∀ trid : Nat, t.target_role_id = some trid →
      g.grole_ids.contains trid = true →
      memberHasRole (RoleMonitor.syncStep gid uid (e, acts) t).1 gid uid trid =
        RoleMonitor.trackedHasSourceRole e uid t) := by
  cases htt : t.target_role_id with
  | none =>
      have hstep : RoleMonitor.syncStep gid uid (e, acts) t = (e, acts) := by
        unfold RoleMonitor.syncStep
        rw [htt]
      rw [hstep]
      exact ⟨fun _ _ => rfl, ⟨g, m, hg, rfl, rfl, rfl, hm⟩, fun _ _ => rfl,
        fun trid htr _ => Option.noConfusion htr⟩
  | some trid0 =>
      by_cases hct : g.grole_ids.contains trid0 = true
      · cases hhs : RoleMonitor.trackedHasSourceRole e uid t with
        | true =>
            by_cases hmr : m.roles.contains trid0 = true
            · -- held remotely and locally: no-op
              have hstep : RoleMonitor.syncStep gid uid (e, acts) t = (e, acts) := by
                unfold RoleMonitor.syncStep
                rw [htt]
                dsimp only
                rw [hg]
                dsimp only
                rw [hct, hm]
                dsimp only
                rw [hhs, hmr]
                rfl
              rw [hstep]
              refine ⟨fun _ _ => rfl, ⟨g, m, hg, rfl, rfl, rfl, hm⟩, fun _ _ => rfl, ?_⟩
              intro trid htr _
              have he : trid = trid0 := (Option.some_inj.mp htr).symm
              rw [he, memberHasRole_def e gid uid trid0 g m hg hm, hmr]
            · -- held remotely, missing locally: grant
              have hmr' : m.roles.contains trid0 = false := by
                rw [← Bool.not_eq_true]; exact hmr
              have hstep : RoleMonitor.syncStep gid uid (e, acts) t =
                  (grant_role e gid uid trid0, acts ++ [Action.grant gid uid trid0]) := by
                unfold RoleMonitor.syncStep
                rw [htt]
                dsimp only
                rw [hg]
                dsimp only
                rw [hct, hm]
                dsimp only
                rw [hhs, hmr']
                rfl
              rw [hstep]
              have hg2 : get_guild (grant_role e gid uid trid0) gid =
                  some (g.updateMember uid
                    (fun m => { m with roles := m.roles ++ [trid0] })) := by
                rw [get_guild_grant, if_pos rfl, hg, Option.map_some']
              refine ⟨?_, ?_, ?_, ?_⟩
              · intro sid hsid
                rw [get_guild_grant, if_neg hsid]
              · refine ⟨g.updateMember uid
                    (fun m => { m with roles := m.roles ++ [trid0] }),
                  { m with roles := m.roles ++ [trid0] }, hg2, rfl, rfl, rfl, ?_⟩
                rw [get_member_updateMember g uid
                      (fun m => { m with roles := m.roles ++ [trid0] })
                      (fun _ => rfl) uid, if_pos rfl, hm, Option.map_some']
              · intro r hr
                have hrne : (r == trid0) = false := by
                  rw [beq_eq_false_iff_ne]
                  intro hrr
                  exact hr (by rw [hrr])
                rw [memberHasRole_grant_eq e gid uid trid0 g m hg hm r, hrne,
                    Bool.or_false, memberHasRole_def e gid uid r g m hg hm]
              · intro trid htr _
                have he : trid = trid0 := (Option.some_inj.mp htr).symm
                rw [he, memberHasRole_grant_eq e gid uid trid0 g m hg hm trid0,
                    beq_self_eq_true, Bool.or_true]
        | false =>
            by_cases hmr : m.roles.contains trid0 = true
            · -- lost remotely, still held locally: revoke
              have hstep : RoleMonitor.syncStep gid uid (e, acts) t =
                  (revoke_role e gid uid trid0, acts ++ [Action.revoke gid uid trid0]) := by
                unfold RoleMonitor.syncStep
                rw [htt]
                dsimp only
                rw [hg]
                dsimp only
                rw [hct, hm]
                dsimp only
                rw [hhs, hmr]
                rfl
              rw [hstep]
              have hg2 : get_guild (revoke_role e gid uid trid0) gid =
                  some (g.updateMember uid
                    (fun m => { m with roles := m.roles.filter (fun r => r != trid0) })) := by
                rw [get_guild_revoke, if_pos rfl, hg, Option.map_some']
              refine ⟨?_, ?_, ?_, ?_⟩
              · intro sid hsid
                rw [get_guild_revoke, if_neg hsid]
              · refine ⟨g.updateMember uid
                    (fun m => { m with roles := m.roles.filter (fun r => r != trid0) }),
                  { m with roles := m.roles.filter (fun r => r != trid0) },
                  hg2, rfl, rfl, rfl, ?_⟩
                rw [get_member_updateMember g uid
                      (fun m => { m with roles := m.roles.filter (fun r => r != trid0) })
                      (fun _ => rfl) uid, if_pos rfl, hm, Option.map_some']
              · intro r hr
                have hrne : (r == trid0) = false := by
                  rw [beq_eq_false_iff_ne]
                  intro hrr
                  exact hr (by rw [hrr])
                rw [memberHasRole_revoke_eq e gid uid trid0 g m hg hm r, hrne,
                    Bool.not_false, Bool.and_true, memberHasRole_def e gid uid r g m hg hm]
              · intro trid htr _
                have he : trid = trid0 := (Option.some_inj.mp htr).symm
                rw [he, memberHasRole_revoke_eq e gid uid trid0 g m hg hm trid0,
                    beq_self_eq_true, Bool.not_true, Bool.and_false]
            · -- not held anywhere: no-op
              have hmr' : m.roles.contains trid0 = false := by
                rw [← Bool.not_eq_true]; exact hmr
              have hstep : RoleMonitor.syncStep gid uid (e, acts) t = (e, acts) := by
                unfold RoleMonitor.syncStep
                rw [htt]
                dsimp only
                rw [hg]
                dsimp only
                rw [hct, hm]
                dsimp only
                rw [hhs, hmr']
                rfl
              rw [hstep]
              refine ⟨fun _ _ => rfl, ⟨g, m, hg, rfl, rfl, rfl, hm⟩, fun _ _ => rfl, ?_⟩
              intro trid htr _
              have he : trid = trid0 := (Option.some_inj.mp htr).symm
              rw [he, memberHasRole_def e gid uid trid0 g m hg hm, hmr']
      · -- target role no longer exists in the guild: skipped
        have hstep : RoleMonitor.syncStep gid uid (e, acts) t = (e, acts) := by
          unfold RoleMonitor.syncStep
          rw [htt]
          dsimp only
          rw [hg]
          dsimp only
          have hct' : g.grole_ids.contains trid0 = false := by
            rw [← Bool.not_eq_true]; exact hct
          rw [hct']
          rfl
        rw [hstep]
        refine ⟨fun _ _ => rfl, ⟨g, m, hg, rfl, rfl, rfl, hm⟩, fun _ _ => rfl, ?_⟩
        intro trid htr hct2
        have he : trid = trid0 := (Option.some_inj.mp htr).symm
        rw [he] at hct2
        exact absurd hct2 hct

/-- The grant/revoke loop over the per-member tracked records: other
communities are untouched, the community keeps its identity and the member,
roles not targeted by any record are untouched, and every record with a
resolved target that exists in the community converges to that record's own
oracle answer (targets pairwise distinct, no record sourcing from the local
community itself). -/
theorem syncFold_main (gid uid gidv : Nat) (nm : String) (grs : List Nat)
    (env0 : Env) :
    ∀ (ts : List TrackedRole) (e : Env) (acts : List Action),
      (∀ sid : Nat, sid ≠ gid → get_guild e sid = get_guild env0 sid) →
      (∃ g m, get_guild e gid = some g ∧ g.gid = gidv ∧ g.gname = nm ∧
        g.grole_ids = grs ∧ g.get_member uid = some m) →
      List.Pairwise (fun a b : TrackedRole =>
        ∀ r : Nat, a.target_role_id = some r → b.target_role_id ≠ some r) ts →
      (∀ t ∈ ts, t.source_server_id ≠ gid) →
      ((∀ sid : Nat, sid ≠ gid →
          get_guild (ts.foldl (RoleMonitor.syncStep gid uid) (e, acts)).1 sid =
            get_guild env0 sid) ∧
       (∃ g m,
          get_guild (ts.foldl (RoleMonitor.syncStep gid uid) (e, acts)).1 gid =
            some g ∧
          g.gid = gidv ∧ g.gname = nm ∧ g.grole_ids = grs ∧
          g.get_member uid = some m) ∧
       (∀ r : Nat, (∀ t ∈ ts, t.target_role_id ≠ some r) →
          memberHasRole (ts.foldl (RoleMonitor.syncStep gid uid) (e, acts)).1
              gid uid r =
            memberHasRole e gid uid r) ∧
       (∀ t ∈ ts, ∀ trid : Nat, t.target_role_id = some trid →
          grs.contains trid = true →
          memberHasRole (ts.foldl (RoleMonitor.syncStep gid uid) (e, acts)).1
              gid uid trid =
            RoleMonitor.trackedHasSourceRole env0 uid t))
  | [], e, acts, hA, hB, _, _ =>
      ⟨hA, hB, fun _ _ => rfl, fun t ht => absurd ht (List.not_mem_nil t)⟩
  | t :: ts, e, acts, hA, hB, hpw, hsrc => by
      obtain ⟨g, m, hg, hgid, hnm, hgr, hm⟩ := hB
      obtain ⟨As, ⟨g2, m2, hg2, hgid2, hnm2, hgr2, hm2⟩, Fs, Ss⟩ :=
        syncStep_analysis gid uid e acts t g m hg hm
      have heta : ((RoleMonitor.syncStep gid uid (e, acts) t).1,
          (RoleMonitor.syncStep gid uid (e, acts) t).2) =
          RoleMonitor.syncStep gid uid (e, acts) t := rfl
      have hA' : ∀ sid : Nat, sid ≠ gid →
          get_guild (RoleMonitor.syncStep gid uid (e, acts) t).1 sid =
            get_guild env0 sid := fun sid h => (As sid h).trans (hA sid h)
      have hB' : ∃ g' m',
          get_guild (RoleMonitor.syncStep gid uid (e, acts) t).1 gid = some g' ∧
          g'.gid = gidv ∧ g'.gname = nm ∧ g'.grole_ids = grs ∧
          g'.get_member uid = some m' :=
        ⟨g2, m2, hg2, hgid2.trans hgid, hnm2.trans hnm, hgr2.trans hgr, hm2⟩
      have hrel := (List.pairwise_cons.mp hpw).1
      have hpw' := (List.pairwise_cons.mp hpw).2
      have hsrc' : ∀ t' ∈ ts, t'.source_server_id ≠ gid :=
        fun t' ht' => hsrc t' (List.mem_cons_of_mem _ ht')
      obtain ⟨IA, IB, IF, IS⟩ := syncFold_main gid uid gidv nm grs env0 ts
        (RoleMonitor.syncStep gid uid (e, acts) t).1
        (RoleMonitor.syncStep gid uid (e, acts) t).2 hA' hB' hpw' hsrc'
      rw [heta] at IA IB IF IS
      rw [List.foldl_cons]
      refine ⟨IA, IB, ?_, ?_⟩
      · intro r hr
        have h1 := IF r (fun t' ht' => hr t' (List.mem_cons_of_mem _ ht'))
        rw [h1, Fs r (hr t (List.mem_cons_self t ts))]
      · intro t' ht' trid htr hct
        rcases List.mem_cons.mp ht' with h | h
        · subst h
          have htail : ∀ t'' ∈ ts, t''.target_role_id ≠ some trid :=
            fun t'' ht'' => hrel t'' ht'' trid htr
          have h1 := IF trid htail
          rw [h1, Ss trid htr (by rw [hgr]; exact hct)]
          exact trackedHasSourceRole_congr e env0 uid t'
            (hA t'.source_server_id (hsrc t' (List.mem_cons_self t' ts)))
        · exact IS t' h trid htr hct

/-- When every record's resolved-and-present target already matches the
member's oracle answer, the grant/revoke loop is a complete no-op. -/
theorem syncFold_stable (gid uid : Nat) :
    ∀ (ts : List TrackedRole) (e : Env) (acts : List Action),
      (∀ t ∈ ts, ∀ trid : Nat, t.target_role_id = some trid →
        ∀ g, get_guild e gid = some g → g.grole_ids.contains trid = true →
          memberHasRole e gid uid trid = RoleMonitor.trackedHasSourceRole e uid t) →
      ts.foldl (RoleMonitor.syncStep gid uid) (e, acts) = (e, acts)
  | [], _, _, _ => rfl
  | t :: ts, e, acts, h => by
      have hstep : RoleMonitor.syncStep gid uid (e, acts) t = (e, acts) := by
        unfold RoleMonitor.syncStep
        cases htt : t.target_role_id with
        | none => rfl
        | some trid =>
            dsimp only
            cases hg : get_guild e gid with
            | none => rfl
            | some g =>
                dsimp only
                by_cases hct : g.grole_ids.contains trid = true
                · rw [hct]
                  cases hmm : g.get_member uid with
                  | none => rfl
                  | some m =>
                      dsimp only
                      have hstab := h t (List.mem_cons_self t ts) trid htt g hg hct
                      rw [memberHasRole_def e gid uid trid g m hg hmm] at hstab
                      cases hhs : RoleMonitor.trackedHasSourceRole e uid t with
                      | true =>
                          rw [hhs] at hstab
                          rw [hstab]
                          rfl
                      | false =>
                          rw [hhs] at hstab
                          rw [hstab]
                          rfl
                · have hct' : g.grole_ids.contains trid = false := by
                    rw [← Bool.not_eq_true]; exact hct
                  rw [hct']
                  rfl
      rw [List.foldl_cons, hstep]
      exact syncFold_stable gid uid ts e acts
        (fun t' ht' => h t' (List.mem_cons_of_mem _ ht'))

theorem any_pointwise {α : Type} (p q : α → Bool) :
    ∀ l : List α, (∀ a ∈ l, p a = q a) → l.any p = l.any q
  | [], _ => rfl
  | a :: l, h => by
      rw [List.any_cons, List.any_cons, h a (List.mem_cons_self a l),
          any_pointwise p q l (fun x hx => h x (List.mem_cons_of_mem _ hx))]

/-- A sync pass over a member no longer present in the community does
nothing. -/
theorem sync_member_absent (env : Env) (db : DBState) (gid uid now : Nat)
    (b : Bool)
    (h : ∀ g, get_guild env gid = some g → g.get_member uid = none) :
    RoleMonitor.sync_user_roles_exc b env db gid uid now = (env, db, []) := by
  unfold RoleMonitor.sync_user_roles_exc
  cases hg : get_guild env gid with
  | none => rfl
  | some g =>
      dsimp only
      rw [h g hg]

/-- `sync_user_roles` with the community and member present, written out: the
server row is resolved once, the grant/revoke loop runs over the active
tracked records, and the ban branch fires exactly on the recorded
condition. -/
theorem sync_reduce (env : Env) (db : DBState) (gid uid now : Nat)
    (g : Guild) (m : Member)
    (hg : get_guild env gid = some g) (hm : g.get_member uid = some m) :
    RoleMonitor.sync_user_roles env db gid uid now =
      (if (!(RoleMonitor.check_user_roles_exc false env db g uid).1.1 &&
           !((Database.get_banned_users
                (Database.get_or_create_server db g.gid g.gname).2
                (Database.get_or_create_server db g.gid g.gname).1.id).map
               (fun b => b.user_id)).contains uid) = true
       then
         (platform_ban
            ((Database.get_tracked_roles
                (Database.get_or_create_server db g.gid g.gname).2
                (Database.get_or_create_server db g.gid g.gname).1.id).foldl
              (RoleMonitor.syncStep gid uid) (env, [])).1 gid uid,
          (Database.ban_user (Database.get_or_create_server db g.gid g.gname).2
             (Database.get_or_create_server db g.gid g.gname).1.id uid m.uname
             (some "Отсутствие требуемых ролей") now).2,
          ((Database.get_tracked_roles
              (Database.get_or_create_server db g.gid g.gname).2
              (Database.get_or_create_server db g.gid g.gname).1.id).foldl
            (RoleMonitor.syncStep gid uid) (env, [])).2 ++ [Action.ban gid uid])
       else
         (((Database.get_tracked_roles
              (Database.get_or_create_server db g.gid g.gname).2
              (Database.get_or_create_server db g.gid g.gname).1.id).foldl
            (RoleMonitor.syncStep gid uid) (env, [])).1,
          (Database.get_or_create_server db g.gid g.gname).2,
          ((Database.get_tracked_roles
              (Database.get_or_create_server db g.gid g.gname).2
              (Database.get_or_create_server db g.gid g.gname).1.id).foldl
            (RoleMonitor.syncStep gid uid) (env, [])).2)) := by
  have hgid : g.gid = gid := by
    have h1 := List.find?_some hg
    rwa [beq_iff_eq] at h1
  have hgoc2 : Database.get_or_create_server
      (Database.get_or_create_server db g.gid g.gname).2 gid g.gname =
      Database.get_or_create_server db g.gid g.gname := by
    rw [← hgid]
    exact goc_idem db g.gid g.gname
  unfold RoleMonitor.sync_user_roles RoleMonitor.sync_user_roles_exc
    RoleMonitor.ban_user
  rw [hg]
  dsimp only
  rw [hm]
  dsimp only
  rw [check_snd env db g uid false m hm, goc_idem db g.gid g.gname, hgoc2]

/-! ## Claim C1 (amended) -/

/-- C1 (amended): after one complete sync pass over a present member — with
pairwise-distinct resolved local roles among the active records and no record
sourcing from the local community itself — the member holds each record's
resolved local role (when that role still exists in the community) iff the
oracle reports the member holding that record's own source role in its source
community: synchronization is per tracked record, so records sharing a source
community keep their separate local roles and are not OR-combined.
Re-running the pass with unchanged oracle answers issues no further actuator
calls. -/
theorem C1_per_record_sync_and_idempotent
    (env : Env) (db : DBState) (gid uid now : Nat) (g0 : Guild) (m0 : Member)
    (hg0 : get_guild env gid = some g0)
    (hm0 : g0.get_member uid = some m0)
    (hsrc : ∀ t ∈ trackedListOf db g0, t.source_server_id ≠ gid)
    (hdist : List.Pairwise (fun a b : TrackedRole =>
        ∀ r : Nat, a.target_role_id = some r → b.target_role_id ≠ some r)
      (trackedListOf db g0)) :
    (∀ t ∈ trackedListOf db g0, ∀ trid : Nat, t.target_role_id = some trid →
      g0.grole_ids.contains trid = true →
      memberHasRole (RoleMonitor.sync_user_roles env db gid uid now).1 gid uid trid =
        RoleMonitor.trackedHasSourceRole env uid t) ∧
    (RoleMonitor.sync_user_roles
        (RoleMonitor.sync_user_roles env db gid uid now).1
        (RoleMonitor.sync_user_roles env db gid uid now).2.1 gid uid now).2.2 = [] := by
  obtain ⟨FA, ⟨gF, mF, hgF, hgidF, hnmF, hgrF, hmF⟩, FF, FS⟩ :=
    syncFold_main gid uid g0.gid g0.gname g0.grole_ids env
      (trackedListOf db g0) env [] (fun _ _ => rfl)
      ⟨g0, m0, hg0, rfl, rfl, rfl, hm0⟩ hdist hsrc
  have hany := check_fst_eq_any env db g0 uid m0 hm0
  rw [sync_reduce env db gid uid now g0 m0 hg0 hm0]
  by_cases hban : (!(RoleMonitor.check_user_roles_exc false env db g0 uid).1.1 &&
      !((Database.get_banned_users
           (Database.get_or_create_server db g0.gid g0.gname).2
           (Database.get_or_create_server db g0.gid g0.gname).1.id).map
          (fun b => b.user_id)).contains uid) = true
  · rw [if_pos hban]
    rw [Bool.and_eq_true] at hban
    obtain ⟨h1, _⟩ := hban
    rw [Bool.not_eq_true'] at h1
    rw [hany] at h1
    constructor
    · intro t ht trid htr hct
      dsimp only
      rw [memberHasRole_platform_ban_self]
      have h3 : RoleMonitor.trackedHasSourceRole env uid t = false := by
        rw [← Bool.not_eq_true]
        exact List.any_eq_false.mp h1 t ht
      rw [h3]
    · dsimp only
      have habs := sync_member_absent
        (platform_ban
          ((Database.get_tracked_roles
              (Database.get_or_create_server db g0.gid g0.gname).2
              (Database.get_or_create_server db g0.gid g0.gname).1.id).foldl
            (RoleMonitor.syncStep gid uid) (env, [])).1 gid uid)
        (Database.ban_user (Database.get_or_create_server db g0.gid g0.gname).2
           (Database.get_or_create_server db g0.gid g0.gname).1.id uid m0.uname
           (some "Отсутствие требуемых ролей") now).2
        gid uid now false
        (fun g hgq => get_member_platform_ban_self _ gid uid g hgq)
      show (RoleMonitor.sync_user_roles_exc false _ _ gid uid now).2.2 = []
      rw [habs]
  · rw [if_neg hban]
    refine ⟨?_, ?_⟩
    · intro t ht trid htr hct
      exact FS t ht trid htr hct
    · dsimp only
      have hred2 := sync_reduce
        ((Database.get_tracked_roles
            (Database.get_or_create_server db g0.gid g0.gname).2
            (Database.get_or_create_server db g0.gid g0.gname).1.id).foldl
          (RoleMonitor.syncStep gid uid) (env, [])).1
        (Database.get_or_create_server db g0.gid g0.gname).2 gid uid now gF mF
        hgF hmF
      rw [check_fst_eq_any
        ((Database.get_tracked_roles
            (Database.get_or_create_server db g0.gid g0.gname).2
            (Database.get_or_create_server db g0.gid g0.gname).1.id).foldl
          (RoleMonitor.syncStep gid uid) (env, [])).1
        (Database.get_or_create_server db g0.gid g0.gname).2 gF uid mF hmF] at hred2
      rw [hgidF, hnmF, goc_idem db g0.gid g0.gname] at hred2
      have hanyc := any_pointwise
        (RoleMonitor.trackedHasSourceRole
          ((Database.get_tracked_roles
              (Database.get_or_create_server db g0.gid g0.gname).2
              (Database.get_or_create_server db g0.gid g0.gname).1.id).foldl
            (RoleMonitor.syncStep gid uid) (env, [])).1 uid)
        (RoleMonitor.trackedHasSourceRole env uid)
        (Database.get_tracked_roles
          (Database.get_or_create_server db g0.gid g0.gname).2
          (Database.get_or_create_server db g0.gid g0.gname).1.id)
        (fun t ht => trackedHasSourceRole_congr _ env uid t
          (FA t.source_server_id (hsrc t ht)))
      rw [hanyc, ← hany] at hred2
      have hstable : ∀ t ∈ (Database.get_tracked_roles
          (Database.get_or_create_server db g0.gid g0.gname).2
          (Database.get_or_create_server db g0.gid g0.gname).1.id),
          ∀ trid : Nat, t.target_role_id = some trid →
          ∀ g, get_guild ((Database.get_tracked_roles
              (Database.get_or_create_server db g0.gid g0.gname).2
              (Database.get_or_create_server db g0.gid g0.gname).1.id).foldl
              (RoleMonitor.syncStep gid uid) (env, [])).1 gid = some g →
            g.grole_ids.contains trid = true →
            memberHasRole ((Database.get_tracked_roles
                (Database.get_or_create_server db g0.gid g0.gname).2
                (Database.get_or_create_server db g0.gid g0.gname).1.id).foldl
                (RoleMonitor.syncStep gid uid) (env, [])).1 gid uid trid =
              RoleMonitor.trackedHasSourceRole ((Database.get_tracked_roles
                (Database.get_or_create_server db g0.gid g0.gname).2
                (Database.get_or_create_server db g0.gid g0.gname).1.id).foldl
                (RoleMonitor.syncStep gid uid) (env, [])).1 uid t := by
        intro t ht trid htr g hgq hct
        have hgg : g = gF := Option.some_inj.mp (hgq.symm.trans hgF)
        subst hgg
        rw [hgrF] at hct
        exact (FS t ht trid htr hct).trans
          (trackedHasSourceRole_congr _ env uid t
            (FA t.source_server_id (hsrc t ht))).symm
      rw [hred2, if_neg hban,
          syncFold_stable gid uid
            (Database.get_tracked_roles
              (Database.get_or_create_server db g0.gid g0.gname).2
              (Database.get_or_create_server db g0.gid g0.gname).1.id)
            ((Database.get_tracked_roles
                (Database.get_or_create_server db g0.gid g0.gname).2
                (Database.get_or_create_server db g0.gid g0.gname).1.id).foldl
              (RoleMonitor.syncStep gid uid) (env, [])).1
            [] hstable]

/-- Witness for C1 at the concrete state `envAB`/`dbAB`: records `trA`, `trB`
with distinct local roles 501 and 502, member 1 present. -/
theorem C1_per_record_sync_witness :
    (∀ t ∈ trackedListOf dbAB gLoc, ∀ trid : Nat, t.target_role_id = some trid →
      gLoc.grole_ids.contains trid = true →
      memberHasRole (RoleMonitor.sync_user_roles envAB dbAB 200 1 100).1 200 1 trid =
        RoleMonitor.trackedHasSourceRole envAB 1 t) ∧
    (RoleMonitor.sync_user_roles
        (RoleMonitor.sync_user_roles envAB dbAB 200 1 100).1
        (RoleMonitor.sync_user_roles envAB dbAB 200 1 100).2.1 200 1 100).2.2 = [] :=
  C1_per_record_sync_and_idempotent envAB dbAB 200 1 100 gLoc ⟨1, false, "a", []⟩
    (by decide) (by decide) (by decide) (by decide)

/-! ## Claim C2 -/

/-- C2: a sync pass over a present member issues a new ban (the platform ban
call together with the `banned_users` upsert) iff the member holds no active
tracked source role in any group across all source communities AND has no
currently-active (`is_unbanned = false`) `banned_users` row for the community;
in particular a member who stays non-compliant while already actively banned
is not banned again. -/
theorem C2_ban_iff_global_noncompliance_and_no_active_ban
    (env : Env) (db : DBState) (gid uid now : Nat) (g0 : Guild) (m0 : Member)
    (hg0 : get_guild env gid = some g0)
    (hm0 : g0.get_member uid = some m0) :
    (Action.ban gid uid ∈ (RoleMonitor.sync_user_roles env db gid uid now).2.2) ↔
      ((∀ t ∈ trackedListOf db g0,
          RoleMonitor.trackedHasSourceRole env uid t = false) ∧
       (∀ b ∈ db.banned_users, b.server_id = (serverRowOf db g0).id →
          b.user_id = uid → b.is_unbanned = true)) := by
  have hany := check_fst_eq_any env db g0 uid m0 hm0
  rw [sync_reduce env db gid uid now g0 m0 hg0 hm0]
  by_cases hban : (!(RoleMonitor.check_user_roles_exc false env db g0 uid).1.1 &&
      !((Database.get_banned_users
           (Database.get_or_create_server db g0.gid g0.gname).2
           (Database.get_or_create_server db g0.gid g0.gname).1.id).map
          (fun b => b.user_id)).contains uid) = true
  · rw [if_pos hban]
    rw [Bool.and_eq_true] at hban
    obtain ⟨h1, h2⟩ := hban
    rw [Bool.not_eq_true'] at h1 h2
    rw [hany] at h1
    constructor
    · intro _
      constructor
      · intro t ht
        rw [← Bool.not_eq_true]
        exact List.any_eq_false.mp h1 t ht
      · have h3 := (banned_contains_false_iff
          (Database.get_or_create_server db g0.gid g0.gname).2
          (Database.get_or_create_server db g0.gid g0.gname).1.id uid).mp h2
        intro b hb
        exact h3 b (by rw [goc_banned_users]; exact hb)
    · intro _
      exact List.mem_append.mpr (Or.inr (List.mem_singleton.mpr rfl))
  · rw [if_neg hban]
    constructor
    · intro hmem
      exact absurd ((syncFold_ban_iff gid uid gid uid _ (env, [])).mp hmem)
        (List.not_mem_nil _)
    · rintro ⟨hall, hb⟩
      exfalso
      apply hban
      rw [Bool.and_eq_true, Bool.not_eq_true', Bool.not_eq_true']
      constructor
      · rw [hany]
        refine List.any_eq_false.mpr ?_
        intro t ht hc
        rw [hall t ht] at hc
        exact Bool.noConfusion hc
      · refine (banned_contains_false_iff _ _ uid).mpr ?_
        intro b hb' hs hu
        rw [goc_banned_users] at hb'
        exact hb b hb' hs hu

/-- Witness for C2 at the concrete state `envAB`/`dbAB`: member 1 holds
tracked source role 11, so the pass issues no ban. -/
theorem C2_ban_iff_witness :
    (Action.ban 200 1 ∈ (RoleMonitor.sync_user_roles envAB dbAB 200 1 100).2.2) ↔
      ((∀ t ∈ trackedListOf dbAB gLoc,
          RoleMonitor.trackedHasSourceRole envAB 1 t = false) ∧
       (∀ b ∈ dbAB.banned_users, b.server_id = (serverRowOf dbAB gLoc).id →
          b.user_id = 1 → b.is_unbanned = true)) :=
  C2_ban_iff_global_noncompliance_and_no_active_ban envAB dbAB 200 1 100 gLoc
    ⟨1, false, "a", []⟩ (by decide) (by decide)

/-! ## Database-layer lemmas -/

theorem trackedKey_set_active (sid ssid srid t0id : Nat) (b : Bool) (r : TrackedRole) :
    Database.trackedKey sid ssid srid
      (if r.id == t0id then { r with is_active := b } else r) =
    Database.trackedKey sid ssid srid r := by
  by_cases h : (r.id == t0id) = true
  · rw [if_pos h]; rfl
  · rw [if_neg h]

theorem banKey_ban_update (s u sid uid now : Nat) (un : String) (rs : Option String)
    (r : BannedUser) :
    Database.banKey s u (if Database.banKey sid uid r then
      { r with username := un, unban_time := now + 600, reason := rs,
               ban_time := now, is_unbanned := false } else r) =
    Database.banKey s u r := by
  by_cases h : Database.banKey sid uid r = true
  · rw [if_pos h]; rfl
  · rw [if_neg h]

/-- Characterization of the `banned_users` table after `Database.ban_user`. -/
theorem ban_user_banned_users (db : DBState) (sid uid : Nat) (un : String)
    (rs : Option String) (now : Nat) :
    (Database.ban_user db sid uid un rs now).2.banned_users =
      if db.banned_users.any (Database.banKey sid uid) then
        db.banned_users.map (fun r =>
          if Database.banKey sid uid r then
            { r with username := un, unban_time := now + 600, reason := rs,
                     ban_time := now, is_unbanned := false }
          else r)
      else
        db.banned_users ++
          [{ id := db.next_ban_id, server_id := sid, user_id := uid,
             username := un, ban_time := now, unban_time := now + 600,
             ban_duration := 600, reason := rs, is_unbanned := false }] := by
  by_cases h : db.banned_users.any (Database.banKey sid uid) = true
  · rw [if_pos h]
    unfold Database.ban_user
    rw [h]
    rfl
  · rw [if_neg h]
    unfold Database.ban_user
    rw [Bool.not_eq_true] at h
    rw [h]
    rfl

/-! ## Claim C5 -/

/-- C5: re-adding a tracked (community, source-community, source-role) key whose
row already exists — active or deactivated — returns the original record's id,
inserts no new row, reactivates the original record, and leaves exactly one
active record for the key (given the `UNIQUE` constraint: exactly one row for
the key). -/
theorem C5_add_tracked_role_idempotent
    (db : DBState) (sid ssid srid : Nat) (ssn srn : Option String)
    (t0 : TrackedRole)
    (hm : t0 ∈ db.tracked_roles)
    (hk : Database.trackedKey sid ssid srid t0 = true)
    (hc : db.tracked_roles.countP (Database.trackedKey sid ssid srid) = 1) :
    (Database.add_tracked_role db sid ssid srid ssn srn).1 = some t0.id ∧
    (Database.add_tracked_role db sid ssid srid ssn srn).2.tracked_roles.length =
      db.tracked_roles.length ∧
    ({ t0 with is_active := true } : TrackedRole) ∈
      (Database.add_tracked_role db sid ssid srid ssn srn).2.tracked_roles ∧
    (Database.add_tracked_role db sid ssid srid ssn srn).2.tracked_roles.countP
      (fun r => Database.trackedKey sid ssid srid r && r.is_active) = 1 := by
  have hf := find?_of_countP_one _ t0 _ hc hm hk
  have hred : Database.add_tracked_role db sid ssid srid ssn srn =
      (some t0.id, { db with tracked_roles := db.tracked_roles.map (fun r =>
        if r.id == t0.id then { r with is_active := true } else r) }) := by
    unfold Database.add_tracked_role
    rw [hf]
  rw [hred]
  refine ⟨rfl, List.length_map _ _, ?_, ?_⟩
  · exact List.mem_map.mpr ⟨t0, hm, by rw [if_pos (beq_self_eq_true t0.id)]⟩
  · obtain ⟨l1, l2, hsplit, h1, h2⟩ := countP_one_split _ t0 _ hc hm hk
    have hz : ∀ l' : List TrackedRole, l'.countP (Database.trackedKey sid ssid srid) = 0 →
        (l'.map (fun r => if r.id == t0.id then { r with is_active := true } else r)).countP
          (fun r => Database.trackedKey sid ssid srid r && r.is_active) = 0 := by
      intro l' hl'
      refine List.countP_eq_zero.mpr ?_
      intro a ha
      obtain ⟨x, hx, rfl⟩ := List.mem_map.mp ha
      intro hcontra
      simp only [Bool.and_eq_true] at hcontra
      rw [trackedKey_set_active] at hcontra
      exact (List.countP_eq_zero.mp hl' x hx) hcontra.1
    have hk' : Database.trackedKey sid ssid srid
        ({ t0 with is_active := true } : TrackedRole) = true := hk
    rw [hsplit, List.map_append, List.map_cons, if_pos (beq_self_eq_true t0.id),
        List.countP_append, hz l1 h1, Nat.zero_add, List.countP_cons, hz l2 h2,
        Nat.zero_add]
    simp [hk']

/-- Witness for C5: re-adding the already-present key (1, 100, 11) of record
`trA` in the concrete state `dbAB`. -/
theorem C5_add_tracked_role_idempotent_witness :
    (Database.add_tracked_role dbAB 1 100 11 none none).1 = some trA.id ∧
    (Database.add_tracked_role dbAB 1 100 11 none none).2.tracked_roles.length =
      dbAB.tracked_roles.length ∧
    ({ trA with is_active := true } : TrackedRole) ∈
      (Database.add_tracked_role dbAB 1 100 11 none none).2.tracked_roles ∧
    (Database.add_tracked_role dbAB 1 100 11 none none).2.tracked_roles.countP
      (fun r => Database.trackedKey 1 100 11 r && r.is_active) = 1 :=
  C5_add_tracked_role_idempotent dbAB 1 100 11 none none trA
    (by decide) (by decide) (by decide)

/-! ## Claim C7 -/

/-- C7: every `banned_users` row written by `Database.ban_user` for the banned
key has its scheduled unban time equal to its ban time plus the fixed 600
second cooldown, the ban time being the current instant. -/
theorem C7_unban_schedule (db : DBState) (sid uid : Nat) (un : String)
    (rs : Option String) (now : Nat) :
    ∀ r ∈ (Database.ban_user db sid uid un rs now).2.banned_users,
      Database.banKey sid uid r = true →
        r.unban_time = r.ban_time + 600 ∧ r.ban_time = now := by
  intro r hr hk
  rw [ban_user_banned_users] at hr
  by_cases hany : db.banned_users.any (Database.banKey sid uid) = true
  · rw [if_pos hany] at hr
    obtain ⟨x, hx, rfl⟩ := List.mem_map.mp hr
    by_cases hkx : Database.banKey sid uid x = true
    · rw [if_pos hkx]
      exact ⟨rfl, rfl⟩
    · rw [if_neg hkx] at hk
      exact absurd hk hkx
  · rw [if_neg hany] at hr
    rcases List.mem_append.mp hr with h | h
    · have : ∀ x ∈ db.banned_users, ¬ Database.banKey sid uid x = true := by
        simpa [List.any_eq_true] using hany
      exact absurd hk (this r h)
    · rw [List.mem_singleton.mp h]
      exact ⟨rfl, rfl⟩

/-- Witness for C7: the row produced by banning user 5 in community row 1 of
the concrete state `c3_db` at instant 1000. -/
theorem C7_unban_schedule_witness :
    bRowAfter.unban_time = bRowAfter.ban_time + 600 ∧ bRowAfter.ban_time = 1000 :=
  C7_unban_schedule c3_db 1 5 "n" none 1000 bRowAfter (by decide) (by decide)

/-! ## Claim C8 -/

/-- C8: `Database.ban_user` preserves the at-most-one-row-per-(community, user)
invariant of `banned_users`; when a row for the key already exists no second
row is inserted — the existing row is updated in place with ban time `now`,
scheduled unban time `now + 600` and a cleared unbanned flag. -/
theorem C8_ban_upsert_unique_and_resets
    (db : DBState) (sid uid : Nat) (un : String) (rs : Option String) (now : Nat)
    (hinv : AtMostOneBanRowPerKey db) :
    AtMostOneBanRowPerKey (Database.ban_user db sid uid un rs now).2 ∧
    ∀ r0 ∈ db.banned_users, Database.banKey sid uid r0 = true →
      (Database.ban_user db sid uid un rs now).2.banned_users.length =
        db.banned_users.length ∧
      ({ r0 with username := un, unban_time := now + 600, reason := rs,
                 ban_time := now, is_unbanned := false } : BannedUser) ∈
        (Database.ban_user db sid uid un rs now).2.banned_users := by
  constructor
  · intro s u
    rw [AtMostOneBanRowPerKey] at hinv
    rw [ban_user_banned_users]
    by_cases hany : db.banned_users.any (Database.banKey sid uid) = true
    · rw [if_pos hany,
          countP_map_pointwise (Database.banKey s u) (Database.banKey s u) _
            db.banned_users (fun a _ => banKey_ban_update s u sid uid now un rs a)]
      exact hinv s u
    · rw [if_neg hany, List.countP_append]
      have hl0 : ∀ x ∈ db.banned_users, ¬ Database.banKey sid uid x = true := by
        simpa [List.any_eq_true] using hany
      by_cases hsu : s = sid ∧ u = uid
      · obtain ⟨rfl, rfl⟩ := hsu
        rw [List.countP_eq_zero.mpr hl0, Nat.zero_add]
        exact le_trans (List.countP_le_length _) (by simp)
      · have hfresh : ¬ Database.banKey s u
            ({ id := db.next_ban_id, server_id := sid, user_id := uid,
               username := un, ban_time := now, unban_time := now + 600,
               ban_duration := 600, reason := rs, is_unbanned := false } : BannedUser)
            = true := by
          intro hb
          rw [Database.banKey] at hb
          simp only [Bool.and_eq_true, beq_iff_eq] at hb
          exact hsu ⟨hb.1.symm, hb.2.symm⟩
        rw [List.countP_cons_of_neg _ _ hfresh]
        have : List.countP (Database.banKey s u) ([] : List BannedUser) = 0 := rfl
        rw [this]
        rw [Nat.add_zero]
        exact hinv s u
  · intro r0 hm hk
    have hany : db.banned_users.any (Database.banKey sid uid) = true :=
      List.any_eq_true.mpr ⟨r0, hm, hk⟩
    rw [ban_user_banned_users, if_pos hany]
    exact ⟨List.length_map _ _, List.mem_map.mpr ⟨r0, hm, by rw [if_pos hk]⟩⟩

/-- Witness for C8: re-banning user 5 who already has the active row `bRow` in
`c3_db` updates that row in place. -/
theorem C8_ban_upsert_unique_and_resets_witness :
    (Database.ban_user c3_db 1 5 "n" none 1000).2.banned_users.length =
      c3_db.banned_users.length ∧
    ({ bRow with username := "n", unban_time := 1000 + 600, reason := none,
                 ban_time := 1000, is_unbanned := false } : BannedUser) ∈
      (Database.ban_user c3_db 1 5 "n" none 1000).2.banned_users :=
  (C8_ban_upsert_unique_and_resets c3_db 1 5 "n" none 1000
      (fun s u => le_trans (List.countP_le_length _) (by decide))).2
    bRow (by decide) (by decide)

/-! ## Claim C10 -/

/-- C10: `Database.unban_user` touches only the `banned_users` rows matching
(community, user) with a cleared unbanned flag, setting the flag and
overwriting the scheduled unban time with the current instant while every
other column and every other row — and every other table — is unchanged; with
no active matching row it is the identity, and it is idempotent. -/
theorem C10_unban_user_frame_and_idempotent (db : DBState) (sid uid now : Nat) :
    (Database.unban_user db sid uid now).banned_users.length =
      db.banned_users.length ∧
    List.Forall₂ (fun r r2 : BannedUser =>
        (Database.banKey sid uid r = true ∧ r.is_unbanned = false →
          r2 = { r with is_unbanned := true, unban_time := now }) ∧
        (¬(Database.banKey sid uid r = true ∧ r.is_unbanned = false) → r2 = r))
      db.banned_users (Database.unban_user db sid uid now).banned_users ∧
    (Database.unban_user db sid uid now).servers = db.servers ∧
    (Database.unban_user db sid uid now).server_settings = db.server_settings ∧
    (Database.unban_user db sid uid now).tracked_roles = db.tracked_roles ∧
    ((∀ r ∈ db.banned_users, Database.banKey sid uid r = true →
        r.is_unbanned = true) →
      Database.unban_user db sid uid now = db) ∧
    (∀ now2 : Nat,
      Database.unban_user (Database.unban_user db sid uid now) sid uid now2 =
        Database.unban_user db sid uid now) := by
  have hguard : ∀ r : BannedUser,
      (Database.banKey sid uid r && r.is_unbanned == false) = true ↔
        (Database.banKey sid uid r = true ∧ r.is_unbanned = false) := by
    intro r
    simp [Bool.and_eq_true, beq_iff_eq]
  refine ⟨List.length_map _ _, ?_, rfl, rfl, rfl, ?_, ?_⟩
  · simp only [Database.unban_user]
    refine List.forall₂_map_right_iff.mpr (List.forall₂_same.mpr ?_)
    intro x _
    constructor
    · intro hcond
      rw [if_pos ((hguard x).mpr hcond)]
    · intro hncond
      rw [if_neg (fun hg => hncond ((hguard x).mp hg))]
  · intro hnone
    have hmap : db.banned_users.map (fun r =>
        if Database.banKey sid uid r && r.is_unbanned == false then
          { r with is_unbanned := true, unban_time := now }
        else r) = db.banned_users := by
      refine map_self _ db.banned_users ?_
      intro a ha
      refine if_neg (fun hg => ?_)
      obtain ⟨hk, hu⟩ := (hguard a).mp hg
      rw [hnone a ha hk] at hu
      exact Bool.noConfusion hu
    rw [Database.unban_user, hmap]
  · intro now2
    have key : ((db.banned_users.map (fun r =>
        if Database.banKey sid uid r && r.is_unbanned == false then
          { r with is_unbanned := true, unban_time := now } else r)).map (fun r =>
        if Database.banKey sid uid r && r.is_unbanned == false then
          { r with is_unbanned := true, unban_time := now2 } else r)) =
        db.banned_users.map (fun r =>
          if Database.banKey sid uid r && r.is_unbanned == false then
            { r with is_unbanned := true, unban_time := now } else r) := by
      rw [List.map_map]
      refine map_pointwise _ _ _ ?_
      intro a _
      by_cases hg : (Database.banKey sid uid a && a.is_unbanned == false) = true
      · rw [Function.comp_apply, if_pos hg]
        refine if_neg (fun hg2 => ?_)
        obtain ⟨_, hu⟩ := (hguard _).mp hg2
        exact Bool.noConfusion hu
      · rw [Function.comp_apply, if_neg hg]
        exact if_neg (fun hg2 => hg hg2)
    exact congrArg
      (fun l => { Database.unban_user db sid uid now with banned_users := l }) key

/-! ## Claim C9 -/

/-- C9: invoking `/serv` with a (source server, source role) pair that already
matches an active tracked record of the community returns the user-visible
"already tracked" rejection and performs no state change: no local role is
created, no channel overwrite is touched, and no database row is inserted or
updated. -/
theorem C9_serv_duplicate_rejected_no_state_change
    (env : Env) (db : DBState) (gid : Nat) (gname : String)
    (sss srs : String) (newRoleId now : Nat)
    (sg : Guild) (srow : ServerRow) (t : TrackedRole)
    (hd1 : isdigit sss = true) (hd2 : isdigit srs = true)
    (hsg : get_guild env (strToNat sss) = some sg)
    (hrole : sg.grole_ids.contains (strToNat srs) = true)
    (hsrow : db.servers.find? (fun s => s.discord_id == gid) = some srow)
    (ht : t ∈ Database.get_tracked_roles db srow.id)
    (hts : t.source_server_id = strToNat sss)
    (htr : t.source_role_id = strToNat srs) :
    add_server_role env db gid gname sss srs newRoleId now =
      (ServResult.alreadyTracked, env, db) := by
  unfold add_server_role
  rw [hd1, hd2]
  rw [if_neg (by decide : ¬(((!true) || (!true)) = true))]
  dsimp only
  rw [hsg]
  dsimp only
  rw [hrole]
  rw [if_neg (by decide : ¬((!true) = true))]
  have hgoc : Database.get_or_create_server db gid gname = (srow, db) := by
    unfold Database.get_or_create_server
    rw [hsrow]
  rw [hgoc]
  dsimp only
  have hanyt : (Database.get_tracked_roles db srow.id).any (fun t' =>
      t'.source_server_id == strToNat sss &&
      t'.source_role_id == strToNat srs) = true := by
    refine List.any_eq_true.mpr ⟨t, ht, ?_⟩
    rw [hts, htr]
    simp
  rw [hanyt]
  rfl

/-- Witness for C9 at the concrete state: re-adding the already-tracked pair
(100, 11) of community 200. -/
theorem C9_serv_duplicate_rejected_witness :
    add_server_role envAB dbAB 200 "l" "100" "11" 999 0 =
      (ServResult.alreadyTracked, envAB, dbAB) :=
  C9_serv_duplicate_rejected_no_state_change envAB dbAB 200 "l" "100" "11" 999 0
    gSrc ⟨1, 200, "l", true⟩ trA (by decide) (by decide) (by decide) (by decide)
    (by decide) (by decide) (by decide) (by decide)

/-! ## Claim C3 -/

/-- C3: refuted as universally stated, on the slip the sweep contains.
`RoleMonitor.auto_unban_users` resolves the guild of a selected row via
`bot.get_guild(int(banned['server_id']))`, passing the *internal*
`servers.id` value (here `1`) where a Discord id (here `200`) is required.
In the concrete state the row `bRow` is selected by the sweep query
(`unbanned = false`, `unban_time = 50 ≤ now = 100`), its community is a guild
the bot is connected to, yet the sweep performs no platform unban, leaves the
row's unbanned flag false and the whole state unchanged — where the claim says
the row is unbanned and marked. -/
theorem C3_unban_sweep_guild_lookup_uses_internal_id :
    bRow ∈ Database.get_users_to_unban c3_db 100 ∧
    bRow.is_unbanned = false ∧
    bRow.unban_time ≤ 100 ∧
    (⟨1, 200, "l", true⟩ : ServerRow) ∈ c3_db.servers ∧
    (get_guild c3_env 200).isSome = true ∧
    get_guild c3_env bRow.server_id = none ∧
    RoleMonitor.auto_unban_users c3_env c3_db 100 = (c3_env, c3_db, []) := by
  decide

/-! ## Claim C4 -/

/-- C4: refuted on the exception path of `RoleMonitor.check_user_roles`, whose
handler coerces a failure into `(False, [])` — "holds no roles" — instead of
skipping the member.  Member 1 is compliant (holds tracked source role 11 on
community 100, witnessed by `trackedHasSourceRole`) and has no active ban row;
when the oracle lookup inside `check_user_roles` raises while the rest of the
pass succeeds, `sync_user_roles` issues a ban for the member, whereas an
exception-free pass issues no ban.  The claim says a failed evaluation leads
to no grant/revoke/ban for that member. -/
theorem C4_oracle_failure_bans_compliant_member :
    RoleMonitor.trackedHasSourceRole envAB 1 trA = true ∧
    dbAB.banned_users = [] ∧
    Action.ban 200 1 ∈ (RoleMonitor.sync_user_roles_exc true envAB dbAB 200 1 100).2.2 ∧
    (RoleMonitor.sync_user_roles_exc false envAB dbAB 200 1 100).2.2 =
      [Action.grant 200 1 501] := by
  decide

/-! ## Claim C6 -/

/-- C6: refuted.  `monitor_roles_task` processes the fixed prefix
`members[:3]` every tick with no rotation or recency bookkeeping, so in a
community whose four non-bot members are all permanently compliant the state
is a fixed point of the tick and member 4 — present and non-bot at every
tick — is never evaluated, on any tick `n`. -/
theorem C6_fixed_prefix_never_covers_fourth_member :
    ∀ n : Nat,
      ((c6_state n).1 = c6_env ∧ (c6_state n).2 = c6_db) ∧
      ((get_guild (c6_state n).1 200).map
        (fun g => (g.members.filter (fun m => !m.is_bot)).length) = some 4) ∧
      (200, 4) ∉ (RoleMonitor.monitor_tick (c6_state n).1 (c6_state n).2 100).2.2.2 := by
  intro n
  have hstate : c6_state n = (c6_env, c6_db) := by
    induction n with
    | zero => rfl
    | succ k ih =>
        show (let s := c6_state k
              let r := RoleMonitor.monitor_tick s.1 s.2 100
              ((r.1, r.2.1) : Env × DBState)) = (c6_env, c6_db)
        rw [ih]
        decide
  rw [hstate]
  exact ⟨⟨rfl, rfl⟩, by decide, by decide⟩

/-- Witness instantiating the universally quantified tick index of C6's
theorem at `n = 5`. -/
theorem C6_fixed_prefix_never_covers_fourth_member_witness :
    ((c6_state 5).1 = c6_env ∧ (c6_state 5).2 = c6_db) ∧
    ((get_guild (c6_state 5).1 200).map
      (fun g => (g.members.filter (fun m => !m.is_bot)).length) = some 4) ∧
    (200, 4) ∉ (RoleMonitor.monitor_tick (c6_state 5).1 (c6_state 5).2 100).2.2.2 :=
  C6_fixed_prefix_never_covers_fourth_member 5

/-! ## Claim C1, counterexample -/

/-- C1: refuted as stated.  Records `trA` and `trB` form one group (same
source community 100) and the claim asserts the group is OR-combined onto
exactly one local role.  In the reachable state `dbAB` the two records of the
group resolve to two distinct local roles (501 and 502), and after a full sync
pass over member 1 — who holds remote role 11, hence at least one remote role
of `trB`'s group — the member does not hold `trB`'s resolved local role 502:
the code synchronizes each record against its own source role only. -/
theorem C1_group_or_counterexample :
    trA ∈ Database.get_tracked_roles dbAB 1 ∧
    trB ∈ Database.get_tracked_roles dbAB 1 ∧
    trA.source_server_id = trB.source_server_id ∧
    RoleMonitor.trackedHasSourceRole envAB 1 trA = true ∧
    trB.target_role_id = some 502 ∧
    (gLoc.get_member 1).isSome = true ∧
    memberHasRole (RoleMonitor.sync_user_roles envAB dbAB 200 1 100).1 200 1 502 = false ∧
    trA.target_role_id ≠ trB.target_role_id := by
  decide

/-- Witness for C10: unbanning user 5 with the active expired row `bRow` in
`c3_db` at instant 77. -/
theorem C10_unban_user_frame_and_idempotent_witness :
    (Database.unban_user c3_db 1 5 77).banned_users.length =
      c3_db.banned_users.length ∧
    (Database.unban_user c3_db 1 5 77).servers = c3_db.servers ∧
    (Database.unban_user (Database.unban_user c3_db 1 5 77) 1 5 99 =
      Database.unban_user c3_db 1 5 77) :=
  ⟨(C10_unban_user_frame_and_idempotent c3_db 1 5 77).1,
   (C10_unban_user_frame_and_idempotent c3_db 1 5 77).2.2.1,
   (C10_unban_user_frame_and_idempotent c3_db 1 5 77).2.2.2.2.2.2 99⟩

end Millions
